import Mathlib

/-!
Shallow embedding of the TriVital monitor DSP core (ECG.c, RESP.c, SPO2.c).

C `double` values are modelled as exact rationals (`ℚ`), C `int` as `ℤ`,
C `u16`/`u32` counters as `ℕ`.  Conversions from `double` to `int`
(C truncation toward zero) are modelled by `cTrunc`.  Each channel's
file-local `static` variables are gathered into one state record per
channel, and each C function becomes a pure state-transition function.
External inputs (ADC samples, the millisecond timer `GetTimeCounter()`,
the lead-off GPIO pin) are passed as arguments; hardware side effects
(GPIO writes, `AdjustDAC`, OLED/printf output) are modelled by the value
of the DAC field respectively by an explicit display-output type.
-/

/-- C conversion of a `double` to `int`: truncation toward zero. -/
def cTrunc (q : ℚ) : ℤ := if 0 ≤ q then ⌊q⌋ else ⌈q⌉

/-- The `int num; num += buf[n];` accumulation loop of `SmoothingFilter`:
the running sum is truncated to `int` after every addition. -/
def accInt (l : List ℚ) : ℤ := l.foldl (fun num x => cTrunc ((num : ℚ) + x)) 0

/-- State of one `SmoothingFilter` instance: the `static int i` fill
counter and the `static double buf[WindowsLen]` ring. -/
structure SmoothState where
  i : ℕ
  buf : List ℚ
deriving DecidableEq

/-- One call of `SmoothingFilter` with window length `W` (ECG: 3,
RESP: 100, SpO2 RED/IR: 5).  Before the ring fills the input is stored
and returned unchanged; afterwards the ring shifts left, appends the
input and returns the (int-accumulated) mean of the `W` slots. -/
def smoothStep (W : ℕ) (NewData : ℚ) (s : SmoothState) : ℚ × SmoothState :=
  if s.i < W then (NewData, ⟨s.i + 1, s.buf.set s.i NewData⟩)
  else
    let buf2 := s.buf.tail ++ [NewData]
    (((accInt buf2 : ℤ) : ℚ) / W, ⟨s.i, buf2⟩)

/-- Initial smoother state (`static` zero initialisation). -/
def initSmooth (W : ℕ) : SmoothState := ⟨0, List.replicate W 0⟩

/-- Feeding a whole input list through one smoother instance. -/
def smoothRun (W : ℕ) (s : SmoothState) : List ℚ → List ℚ × SmoothState
  | [] => ([], s)
  | x :: xs =>
    let p := smoothStep W x s
    let q := smoothRun W p.2 xs
    (p.1 :: q.1, q.2)

/-- Steady-state window contents: after `j+1` further inputs past a full
ring `buf`, the ring holds the last `W` values of `buf ++ xs`. -/
def slideWin (buf xs : List ℚ) (j : ℕ) : List ℚ := (buf ++ xs.take (j + 1)).drop (j + 1)

/-- Second-order IIR delay line `double arrtemp[N+1]` (N = 2). -/
structure Win2 where
  s0 : ℚ
  s1 : ℚ
  s2 : ℚ
deriving DecidableEq

/-- All-zero delay line (static initialisation / memset). -/
def zeroWin : Win2 := ⟨0, 0, 0⟩

/-- A biquad coefficient triple `b[0..2]` or `a[0..2]`. -/
structure Coeff where
  c0 : ℚ
  c1 : ℚ
  c2 : ℚ

/-- One call of the shared biquad body (`IIRNotch` / `IIRLowpass` /
`IIRHighpass` in all three C files have this identical shape):
`arrtemp[0] = input - a1*arrtemp[1] - a2*arrtemp[2]`,
`output = b0*arrtemp[0] + b1*arrtemp[1] + b2*arrtemp[2]`,
then the shift `arrtemp[i] = arrtemp[i-1]` for i = N..1. -/
def iirStep (b a : Coeff) (input : ℚ) (w : Win2) : ℚ × Win2 :=
  let w0 := input - a.c1 * w.s1 - a.c2 * w.s2
  let output := b.c0 * w0 + b.c1 * w.s1 + b.c2 * w.s2
  (output, ⟨w0, w0, w.s1⟩)

/-- The max scan used by `Update_Threshold` / `Analyze_SPO2Wave`: running
maximum seeded with `peakMax = 0.0`, updated when `data[i] > peakMax`. -/
def scanMax (l : List ℚ) : ℚ := l.foldl (fun m x => if m < x then x else m) 0

/-- The min scan: running minimum seeded with `peakMin = 4095.0`. -/
def scanMin (l : List ℚ) : ℚ := l.foldl (fun m x => if x < m then x else m) 4095

/-- `calRate`: identical static helper in ECG.c, RESP.c and SPO2.c;
`*rate_output = (int)(60000.0 / ppdistance)`. -/
def calRate (ppdistance : ℚ) : ℤ := cTrunc (60000 / ppdistance)

/-- Unsigned 32-bit subtraction (the ECG peak timestamps are `u32`). -/
def u32sub (a b : ℕ) : ℕ := (a + 2 ^ 32 - b) % 2 ^ 32

/-- Result of a display routine: the numeric reading or the `"Err"` marker. -/
inductive DispOut where
  | err : DispOut
  | num : ℤ → DispOut
deriving DecidableEq

namespace ECG

def IIRNotch_b : Coeff := ⟨0.245237275252786, 0.396802246667420, 0.245237275252786⟩
def IIRNotch_a : Coeff := ⟨1, 0.396802246667420, -0.509525449494429⟩
def IIRLowpass_b : Coeff := ⟨0.274726851035635, 0.549453702071270, 0.274726851035635⟩
def IIRLowpass_a : Coeff := ⟨1, -0.0736238463849785, 0.172531250527518⟩
def IIRHighpass_b : Coeff := ⟨0.948080785129270, -1.89616157025854, 0.948080785129270⟩
def IIRHighpass_a : Coeff := ⟨1, -1.89346414636183, 0.898858994155252⟩

/-- The file-local `static` state of ECG.c. -/
structure State where
  notchWin : Win2
  lowWin : Win2
  highWin : Win2
  smooth : SmoothState
  wave : List ℚ
  waveIndex : ℕ
  peakThreshold : ℚ
  lastPeak : ℕ
  currentPeak : ℕ
  heartRate : ℤ
deriving DecidableEq

/-- `Update_Threshold` of ECG.c: scan `data_window[1..windowSize-1]`
(the loop starts at `i = 1`) and set `max - (max - min)/4`. -/
def Update_Threshold (data_window : List ℚ) : ℚ :=
  let peakMax := scanMax (data_window.drop 1)
  let peakMin := scanMin (data_window.drop 1)
  peakMax - (peakMax - peakMin) / 4

/-- The all-zero static-initialisation state of ECG.c. -/
def initState : State :=
  ⟨zeroWin, zeroWin, zeroWin, initSmooth 3, List.replicate 300 0, 0, 0, 0, 0, 0⟩

/-- `InitECG`: memsets the three delay lines and the wave buffer, zeroes
index, threshold, both peak timestamps and the heart rate.  The
`SmoothingFilter` statics (`i`, `buf`) are local to that function and
are not touched. -/
def InitECG (s : State) : State :=
  { s with notchWin := zeroWin, lowWin := zeroWin, highWin := zeroWin,
           wave := List.replicate 300 0, waveIndex := 0, peakThreshold := 0,
           lastPeak := 0, currentPeak := 0, heartRate := 0 }

/-- Filter/write phase of `ECGTask`: notch → highpass → lowpass →
smoother, write the smoothed sample at the window index, advance it. -/
def ecgWrite (inp : ℕ) (s : State) : State :=
  let p1 := iirStep IIRNotch_b IIRNotch_a (inp : ℚ) s.notchWin
  let p2 := iirStep IIRHighpass_b IIRHighpass_a p1.1 s.highWin
  let p3 := iirStep IIRLowpass_b IIRLowpass_a p2.1 s.lowWin
  let p4 := smoothStep 3 p3.1 s.smooth
  { s with notchWin := p1.2, highWin := p2.2, lowWin := p3.2,
           smooth := p4.2, wave := s.wave.set s.waveIndex p4.1,
           waveIndex := s.waveIndex + 1 }

/-- Rising-edge R-wave detection of `ECGTask` (suppressed at the two
indices adjacent to the wrap). -/
def ecgDetect (now : ℕ) (s : State) : State :=
  if 1 < s.waveIndex ∧ s.waveIndex < 299 then
    if s.wave.getD (s.waveIndex - 2) 0 ≤ s.peakThreshold ∧
       s.peakThreshold ≤ s.wave.getD (s.waveIndex - 1) 0 then
      { s with currentPeak := now,
               heartRate := calRate ((u32sub now s.lastPeak : ℕ) : ℚ),
               lastPeak := now }
    else s
  else s

/-- `ECGTask`: filter/write, then threshold refresh on wrap (window
length 300), then detection. -/
def ECGTask (now : ℕ) (inp : ℕ) (s : State) : State :=
  let s1 := ecgWrite inp s
  let s2 : State :=
    if 300 ≤ s1.waveIndex then
      { s1 with waveIndex := 0, peakThreshold := Update_Threshold s1.wave }
    else s1
  ecgDetect now s2

/-- `OLED_ECG`: `leadOff` is the PB0 lead-off input (`true` = reads 1 =
electrode disconnected).  The state is returned unchanged: the routine
reads `heartRate` but assigns no static variable. -/
def OLED_ECG (leadOff : Bool) (s : State) : DispOut × State :=
  if leadOff then (DispOut.err, s)
  else if 20 ≤ s.heartRate ∧ s.heartRate ≤ 250 then (DispOut.num s.heartRate, s)
  else (DispOut.err, s)

end ECG

namespace RESP

def IIRNotch_b : Coeff := ⟨0.245237275252786, 0.396802246667420, 0.245237275252786⟩
def IIRNotch_a : Coeff := ⟨1, 0.396802246667420, -0.509525449494429⟩
def IIRLowpass_b : Coeff := ⟨0.0461318020933129, 0.0922636041866259, 0.0461318020933129⟩
def IIRLowpass_a : Coeff := ⟨1, -1.30728502884932, 0.491812237222575⟩

/-- The file-local `static` state of RESP.c (`lastPeak_index` and
`currentPeak_index` are `double` there, hence `ℚ`). -/
structure State where
  notchWin : Win2
  lowWin : Win2
  smooth : SmoothState
  wave : List ℚ
  waveIndex : ℕ
  peakThreshold : ℚ
  lastPeak : ℚ
  currentPeak : ℚ
  breathRate : ℤ
  s_peak2peak : ℚ
deriving DecidableEq

/-- `Update_Threshold` of RESP.c: like the ECG version (scan from index 1,
k = 4) but it also stores the scanned peak-to-peak into `s_peak2peak`;
returns (threshold, peak2peak). -/
def Update_Threshold (data_window : List ℚ) : ℚ × ℚ :=
  let peakMax := scanMax (data_window.drop 1)
  let peakMin := scanMin (data_window.drop 1)
  (peakMax - (peakMax - peakMin) / 4, peakMax - peakMin)

/-- The all-zero static-initialisation state of RESP.c. -/
def initState : State :=
  ⟨zeroWin, zeroWin, initSmooth 100, List.replicate 1000 0, 0, 0, 0, 0, 0, 0⟩

/-- `InitRESP`: zeroes both delay lines, the wave buffer, index,
threshold, peak timestamps, breath rate and `s_peak2peak`.  The
`SmoothingFilter` statics are local to that function and not touched. -/
def InitRESP (s : State) : State :=
  { s with notchWin := zeroWin, lowWin := zeroWin,
           wave := List.replicate 1000 0, waveIndex := 0, peakThreshold := 0,
           lastPeak := 0, currentPeak := 0, breathRate := 0, s_peak2peak := 0 }

/-- Filter/write phase of `RESPTask`: notch → lowpass → smoother, write
the smoothed sample at the window index, advance it. -/
def respWrite (inp : ℕ) (s : State) : State :=
  let p1 := iirStep IIRNotch_b IIRNotch_a (inp : ℚ) s.notchWin
  let p2 := iirStep IIRLowpass_b IIRLowpass_a p1.1 s.lowWin
  let p3 := smoothStep 100 p2.1 s.smooth
  { s with notchWin := p1.2, lowWin := p2.2,
           smooth := p3.2, wave := s.wave.set s.waveIndex p3.1,
           waveIndex := s.waveIndex + 1 }

/-- Rising-edge breath detection of `RESPTask`. -/
def respDetect (now : ℕ) (s : State) : State :=
  if 1 < s.waveIndex ∧ s.waveIndex < 999 then
    if s.wave.getD (s.waveIndex - 2) 0 ≤ s.peakThreshold ∧
       s.peakThreshold ≤ s.wave.getD (s.waveIndex - 1) 0 then
      { s with currentPeak := (now : ℚ),
               breathRate := calRate ((now : ℚ) - s.lastPeak),
               lastPeak := (now : ℚ) }
    else s
  else s

/-- `RESPTask`: filter/write, then threshold / peak-to-peak refresh on
wrap (window length 1000), then detection. -/
def RESPTask (now : ℕ) (inp : ℕ) (s : State) : State :=
  let s1 := respWrite inp s
  let s2 : State :=
    if 1000 ≤ s1.waveIndex then
      { s1 with waveIndex := 0,
                peakThreshold := (Update_Threshold s1.wave).1,
                s_peak2peak := (Update_Threshold s1.wave).2 }
    else s1
  respDetect now s2

/-- `OLED_RESP`: the lead is judged bad when `s_peak2peak < 600` or
`> 3000`; otherwise the breath rate is shown iff it lies in [5, 100].
No static variable is assigned. -/
def OLED_RESP (s : State) : DispOut × State :=
  if s.s_peak2peak < 600 ∨ 3000 < s.s_peak2peak then (DispOut.err, s)
  else if 5 ≤ s.breathRate ∧ s.breathRate ≤ 100 then (DispOut.num s.breathRate, s)
  else (DispOut.err, s)

end RESP

namespace SPO2

def IIRLowpass_b : Coeff := ⟨0.00512926836610717, 0.0102585367322143, 0.00512926836610717⟩
def IIRLowpass_a : Coeff := ⟨1, -1.78743251795648, 0.807949591420913⟩
def IIRHighpass_b : Coeff := ⟨0.989393726763531, -1.97878745352706, 0.989393726763531⟩
def IIRHighpass_a : Coeff := ⟨1, -1.97867495733125, 0.978899949722877⟩

/-- The file-local `static` state of SPO2.c. -/
structure State where
  dataRED : ℤ
  dataIR : ℤ
  lowWinRED : Win2
  lowWinIR : Win2
  highWinRED : Win2
  highWinIR : Win2
  smoothRED : SmoothState
  smoothIR : SmoothState
  waveRate : List ℚ
  waveRED : List ℚ
  waveIR : List ℚ
  waveIndex : ℕ
  peakThreshold : ℚ
  lastPeak : ℤ
  currentPeak : ℤ
  heartRate : ℤ
  hrBuf : List ℤ
  hrCnt : ℕ
  peak2peakRED : ℚ
  peak2peakIR : ℚ
  valueR : ℚ
  valueSPO2 : ℚ
  rValueBuf : List ℤ
  sDACdata : ℕ
  adjustWaitCnt : ℤ
deriving DecidableEq

/-- Result record for `Analyze_SPO2Wave`: outputs `*ppRed_output`,
`*ppIR_output` and the assignment to the static `peakThreshold`. -/
structure AnalyzeResult where
  ppRed : ℚ
  ppIR : ℚ
  threshold : ℚ
deriving DecidableEq

/-- `Analyze_SPO2Wave`: one loop over `i = 0 .. waveSize-1` (index 0
included) maintaining max/min of all three waves (seeds 0.0 / 4095.0);
peak-to-peak for waves 1 and 2, pulse threshold `max - (max - min)/3`
from wave 3. -/
def Analyze_SPO2Wave (wave1 wave2 wave3 : List ℚ) : AnalyzeResult :=
  { ppRed := scanMax wave1 - scanMin wave1,
    ppIR := scanMax wave2 - scanMin wave2,
    threshold := scanMax wave3 - (scanMax wave3 - scanMin wave3) / 3 }

/-- One compare-swap pass of `bubbleSort` over the first `n` adjacent
pairs.  The C swap stores `arr[j]` through a `uint16_t` temporary, so the
value written back to `arr[j+1]` is reduced mod 2^16. -/
def bubblePassN : ℕ → List ℤ → List ℤ
  | 0, l => l
  | _ + 1, [] => []
  | _ + 1, [a] => [a]
  | n + 1, a :: b :: rest =>
    if b < a then b :: bubblePassN n ((a % 65536) :: rest)
    else a :: bubblePassN n (b :: rest)

/-- `bubbleSort`: outer loop `i = 0 .. size-2`, inner loop
`j = 0 .. size-i-2` (that is, `size-i-1` compare-swaps). -/
def bubbleSort (l : List ℤ) : List ℤ :=
  (List.range (l.length - 1)).foldl (fun arr i => bubblePassN (l.length - i - 1) arr) l

/-- The median extraction of `calSpO2`: copy of the ratio buffer is
bubble-sorted, then for the fixed odd size 5 the middle element
`tempBuf[R_BUFSIZE/2]` is taken (the even branch is dead code for 5). -/
def medianOfBuf (l : List ℤ) : ℤ :=
  let temp := bubbleSort l
  if l.length % 2 = 0 then
    Int.tdiv (temp.getD (l.length / 2) 0 + temp.getD (l.length / 2 + 1) 0) 2
  else temp.getD (l.length / 2) 0

/-- The empirical R → SpO2 lookup chain of `calSpO2`.  Falls through to
`prev` (the `*spo2` value left untouched) when `rInt > 1200`: the final
`else` branch of the chain assigns nothing. -/
def spo2FromTable (rInt : ℤ) (prev : ℚ) : ℚ :=
  if rInt ≤ 450 then 99
  else if 451 ≤ rInt ∧ rInt ≤ 470 then 98
  else if 471 ≤ rInt ∧ rInt ≤ 510 then 97
  else if 511 ≤ rInt ∧ rInt ≤ 540 then 96
  else if 541 ≤ rInt ∧ rInt ≤ 580 then 95
  else if 581 ≤ rInt ∧ rInt ≤ 600 then 94
  else if 601 ≤ rInt ∧ rInt ≤ 620 then 93
  else if 621 ≤ rInt ∧ rInt ≤ 640 then 92
  else if 641 ≤ rInt ∧ rInt ≤ 680 then 91
  else if 681 ≤ rInt ∧ rInt ≤ 720 then 90
  else if 721 ≤ rInt ∧ rInt ≤ 800 then 89
  else if 801 ≤ rInt ∧ rInt ≤ 940 then 88
  else if 941 ≤ rInt ∧ rInt ≤ 980 then 87
  else if 981 ≤ rInt ∧ rInt ≤ 1020 then 86
  else if 1021 ≤ rInt ∧ rInt ≤ 1060 then 85
  else if 1061 ≤ rInt ∧ rInt ≤ 1080 then 84
  else if 1081 ≤ rInt ∧ rInt ≤ 1100 then 83
  else if 1101 ≤ rInt ∧ rInt ≤ 1120 then 82
  else if 1121 ≤ rInt ∧ rInt ≤ 1150 then 81
  else if 1151 ≤ rInt ∧ rInt ≤ 1170 then 80
  else if 1171 ≤ rInt ∧ rInt ≤ 1200 then 79
  else prev

/-- The final range check of `calSpO2`: `> 100 → 100`, `< 70 → 70`. -/
def clampSpO2 (s : ℚ) : ℚ := if 100 < s then 100 else if s < 70 then 70 else s

/-- Result record for `calSpO2`: `*rValue`, the shifted static
`rValue_buf`, and `*spo2`. -/
structure CalResult where
  rValue : ℚ
  buf : List ℤ
  spo2 : ℚ
deriving DecidableEq

/-- `calSpO2`: R = redPeak/irPeak × 1000; shift-left-append its `int`
truncation into `rValue_buf`; bubble-sort a copy, take the median, map it
through the table (falling through to the previous `*spo2` above 1200)
and clamp the result to [70, 100]. -/
def calSpO2 (redPeak irPeak : ℚ) (rValue_buf : List ℤ) (prev : ℚ) : CalResult :=
  let rValue := redPeak / irPeak * 1000
  let buf2 := rValue_buf.tail ++ [cTrunc rValue]
  let rInt := medianOfBuf buf2
  { rValue := rValue, buf := buf2, spo2 := clampSpO2 (spo2FromTable rInt prev) }

/-- `InitSPO2`: zeroes only the two lowpass delay lines and sets the DAC
drive to 240; every other static of SPO2.c is left untouched. -/
def InitSPO2 (s : State) : State :=
  { s with lowWinRED := zeroWin, lowWinIR := zeroWin, sDACdata := 240 }

/-- Filter stage of `SPO2Task` (highpass → lowpass → smoother for each
of RED and IR); returns the two smoothed outputs `output2[0]`,
`output2[1]` together with the updated filter state. -/
def spo2Filters (s : State) : (ℚ × ℚ) × State :=
  let pR := iirStep IIRHighpass_b IIRHighpass_a (s.dataRED : ℚ) s.highWinRED
  let pI := iirStep IIRHighpass_b IIRHighpass_a (s.dataIR : ℚ) s.highWinIR
  let qR := iirStep IIRLowpass_b IIRLowpass_a pR.1 s.lowWinRED
  let qI := iirStep IIRLowpass_b IIRLowpass_a pI.1 s.lowWinIR
  let rR := smoothStep 5 qR.1 s.smoothRED
  let rI := smoothStep 5 qI.1 s.smoothIR
  ((rR.1, rI.1),
   { s with highWinRED := pR.2, highWinIR := pI.2, lowWinRED := qR.2, lowWinIR := qI.2,
            smoothRED := rR.2, smoothIR := rI.2 })

/-- Analysis step on a non-cool-down wrap: `Analyze_SPO2Wave` on the
three 300-sample windows followed by `calSpO2`. -/
def spo2Analyze (s : State) : State :=
  let a := Analyze_SPO2Wave s.waveRED s.waveIR s.waveRate
  let c := calSpO2 a.ppRed a.ppIR s.rValueBuf s.valueSPO2
  { s with peak2peakRED := a.ppRed, peak2peakIR := a.ppIR, peakThreshold := a.threshold,
           valueR := c.rValue, rValueBuf := c.buf, valueSPO2 := c.spo2 }

/-- Auto-gain step of `SPO2Task`: raise the DAC drive by 40 (clamped to
500) when the RED peak-to-peak is below 20, lower it by 40 (clamped to
100) when above 80; either change arms `adjust_wait_cnt = 1`. -/
def spo2AutoGain (s : State) : State :=
  if s.peak2peakRED < 20 ∧ s.sDACdata < 500 then
    let d := s.sDACdata + 40
    { s with sDACdata := if 500 < d then 500 else d, adjustWaitCnt := 1 }
  else if 80 < s.peak2peakRED ∧ 100 < s.sDACdata then
    let d := s.sDACdata - 40
    { s with sDACdata := if d < 100 then 100 else d, adjustWaitCnt := 1 }
  else s

/-- The rate accumulator at the end of `SPO2Task`'s detection branch:
the first five samples are stored (`hr_cnt <= 4`); one further sample
triggers `heartRate = (sum of the five stored)/5` and resets the
counter, without storing the triggering sample. -/
def spo2HrAccum (curHr : ℤ) (s : State) : State :=
  if s.hrCnt ≤ 4 then { s with hrBuf := s.hrBuf.set s.hrCnt curHr, hrCnt := s.hrCnt + 1 }
  else { s with heartRate := Int.tdiv (s.hrBuf.foldl (· + ·) 0) 5, hrCnt := 0 }

/-- Falling-edge pulse detection of `SPO2Task` on the rate window
(suppressed at the two indices adjacent to the wrap). -/
def spo2PeakDetect (now : ℕ) (s : State) : State :=
  if 1 < s.waveIndex ∧ s.waveIndex < 299 then
    if 0 ≤ s.waveRate.getD (s.waveIndex - 2) 0 - s.peakThreshold ∧
       s.waveRate.getD (s.waveIndex - 1) 0 - s.peakThreshold ≤ 0 then
      let cur : ℤ := (now : ℤ)
      let curHr := calRate ((cur : ℚ) - (s.lastPeak : ℚ))
      spo2HrAccum curHr { s with currentPeak := cur, lastPeak := cur }
    else s
  else s

/-- Filter/write phase of `SPO2Task`: run both filter chains, write the
three windows at the window index, advance it. -/
def spo2Write (s : State) : State :=
  let f := spo2Filters s
  { f.2 with waveRED := f.2.waveRED.set f.2.waveIndex f.1.1,
             waveIR := f.2.waveIR.set f.2.waveIndex f.1.2,
             waveRate := f.2.waveRate.set f.2.waveIndex f.1.2,
             waveIndex := f.2.waveIndex + 1 }

/-- `SPO2Task` (8 ms cadence): filter both wavelengths, write all three
windows, advance the index; on wrap (index reaches 300) either burn one
cool-down cycle (early `return`) or run analysis plus auto-gain; finally
the every-tick pulse detection. -/
def SPO2Task (now : ℕ) (s : State) : State :=
  let s1 := spo2Write s
  if 300 ≤ s1.waveIndex then
    let s2 : State := { s1 with waveIndex := 0 }
    if 0 < s2.adjustWaitCnt then { s2 with adjustWaitCnt := s2.adjustWaitCnt - 1 }
    else spo2PeakDetect now (spo2AutoGain (spo2Analyze s2))
  else spo2PeakDetect now s1

end SPO2

/-- The three channels' states side by side.  In the C program each
channel's statics are private to its own translation unit; an `Init` of
one channel can only touch that channel's record. -/
structure SysState where
  ecg : ECG.State
  resp : RESP.State
  spo2 : SPO2.State

def sysInitECG (s : SysState) : SysState := { s with ecg := ECG.InitECG s.ecg }

def sysInitRESP (s : SysState) : SysState := { s with resp := RESP.InitRESP s.resp }

def sysInitSPO2 (s : SysState) : SysState := { s with spo2 := SPO2.InitSPO2 s.spo2 }

/-- A fully populated SPO2 state with non-zero processing state, as it
may look while the engine is running. -/
def spo2DirtyState : SPO2.State :=
  { dataRED := 100, dataIR := 200,
    lowWinRED := ⟨1, 2, 3⟩, lowWinIR := ⟨4, 5, 6⟩,
    highWinRED := ⟨7, 8, 9⟩, highWinIR := ⟨10, 11, 12⟩,
    smoothRED := ⟨5, [1, 2, 3, 4, 5]⟩, smoothIR := ⟨5, [6, 7, 8, 9, 10]⟩,
    waveRate := List.replicate 300 2, waveRED := List.replicate 300 3,
    waveIR := List.replicate 300 4,
    waveIndex := 42, peakThreshold := 7, lastPeak := 1000, currentPeak := 1500,
    heartRate := 72, hrBuf := [70, 71, 72, 73, 74], hrCnt := 3,
    peak2peakRED := 50, peak2peakIR := 60, valueR := 833, valueSPO2 := 97,
    rValueBuf := [800, 810, 820, 830, 840], sDACdata := 240, adjustWaitCnt := 1 }

/-- A running SpO2 state whose rate accumulator is empty. -/
def hrFreshState : SPO2.State :=
  { spo2DirtyState with hrCnt := 0, hrBuf := [0, 0, 0, 0, 0], heartRate := 0 }

/-- The accumulator state after five detected-peak rate samples. -/
def c5After5 : SPO2.State :=
  SPO2.spo2HrAccum 50 (SPO2.spo2HrAccum 40 (SPO2.spo2HrAccum 30 (SPO2.spo2HrAccum 20
    (SPO2.spo2HrAccum 10 hrFreshState))))

/-- The accumulator state after a sixth sample. -/
def c5After6 : SPO2.State := SPO2.spo2HrAccum 60 c5After5

/-- A concrete SpO2 state one sample before a window wrap, with no
cool-down pending: quiescent filters, an all-zero RED window and an IR /
rate window whose single non-zero sample (100) sits at index 0. -/
def c7State : SPO2.State :=
  { spo2DirtyState with
      dataRED := 0, dataIR := 0,
      lowWinRED := zeroWin, lowWinIR := zeroWin,
      highWinRED := zeroWin, highWinIR := zeroWin,
      smoothRED := initSmooth 5, smoothIR := initSmooth 5,
      waveRate := 100 :: List.replicate 299 0,
      waveRED := List.replicate 300 0,
      waveIR := 100 :: List.replicate 299 0,
      waveIndex := 299, peakThreshold := 0,
      sDACdata := 240, adjustWaitCnt := 0 }

/-- The threshold the spec prescribes for a window: scan excluding index
0, `max - (max - min)/k`.  Stated from the spec's words for comparison
with the implementation. -/
def specThresholdExcl0 (w : List ℚ) (k : ℚ) : ℚ :=
  scanMax (w.drop 1) - (scanMax (w.drop 1) - scanMin (w.drop 1)) / k

@[simp] theorem cTrunc_intCast (k : ℤ) : cTrunc (k : ℚ) = k := by
  unfold cTrunc
  split <;> simp

theorem smoothRun_nil (W : ℕ) (s : SmoothState) : smoothRun W s [] = ([], s) := rfl

theorem smoothRun_cons (W : ℕ) (s : SmoothState) (x : ℚ) (xs : List ℚ) :
    smoothRun W s (x :: xs) =
      ((smoothStep W x s).1 :: (smoothRun W (smoothStep W x s).2 xs).1,
       (smoothRun W (smoothStep W x s).2 xs).2) := rfl

theorem smoothRun_append (W : ℕ) (s : SmoothState) (xs ys : List ℚ) :
    smoothRun W s (xs ++ ys) =
      ((smoothRun W s xs).1 ++ (smoothRun W (smoothRun W s xs).2 ys).1,
       (smoothRun W (smoothRun W s xs).2 ys).2) := by
  induction xs generalizing s with
  | nil => simp [smoothRun_nil]
  | cons x xs ih => simp [smoothRun_cons, ih]

theorem length_smoothRun (W : ℕ) (s : SmoothState) (xs : List ℚ) :
    (smoothRun W s xs).1.length = xs.length := by
  induction xs generalizing s with
  | nil => simp [smoothRun_nil]
  | cons x xs ih => simp [smoothRun_cons, ih]

theorem set_append_left_length (l r : List ℚ) (a : ℚ) :
    (l ++ r).set l.length a = l ++ r.set 0 a := by
  induction l with
  | nil => simp
  | cons x xs ih => simp [ih]

/-- Warm-up phase of the smoother: as long as the ring is still filling,
every call stores the input at the fill index and returns it unchanged. -/

theorem smoothRun_fill (W : ℕ) :
    ∀ (xs pre : List ℚ), pre.length + xs.length ≤ W →
    smoothRun W ⟨pre.length, pre ++ List.replicate (W - pre.length) 0⟩ xs
      = (xs, ⟨pre.length + xs.length,
              (pre ++ xs) ++ List.replicate (W - (pre.length + xs.length)) 0⟩) := by
  intro xs
  induction xs with
  | nil => intro pre h; simp [smoothRun_nil]
  | cons x xs ih =>
    intro pre h
    simp only [List.length_cons] at h
    have hlen : pre.length < W := by omega
    have hrep : W - pre.length = (W - (pre.length + 1)) + 1 := by omega
    have hstep : smoothStep W x ⟨pre.length, pre ++ List.replicate (W - pre.length) 0⟩
        = (x, ⟨pre.length + 1, (pre ++ [x]) ++ List.replicate (W - (pre.length + 1)) 0⟩) := by
      simp only [smoothStep, hlen, if_pos]
      rw [hrep, List.replicate_succ, set_append_left_length]
      simp
    have ih2 := ih (pre ++ [x]) (by simp; omega)
    simp only [List.length_append, List.length_singleton] at ih2
    rw [smoothRun_cons, hstep]
    simp only [List.append_assoc, List.singleton_append] at ih2 ⊢
    rw [ih2]
    have harith : pre.length + 1 + xs.length = pre.length + (xs.length + 1) := by omega
    simp only [List.length_cons, harith]

/-- Steady-state phase of the smoother: once the ring is full, the `j`-th
further output is the int-accumulated mean of the sliding window. -/

theorem smoothRun_slide (W : ℕ) (hW : 0 < W) :
    ∀ (xs buf : List ℚ), buf.length = W →
      ∀ j, j < xs.length →
        (smoothRun W ⟨W, buf⟩ xs).1.getD j 0
          = ((accInt (slideWin buf xs j) : ℤ) : ℚ) / W := by
  intro xs
  induction xs with
  | nil => intro buf hb j hj; simp at hj
  | cons x xs ih =>
    intro buf hb j hj
    have hstep : smoothStep W x ⟨W, buf⟩
        = (((accInt (buf.tail ++ [x]) : ℤ) : ℚ) / W, ⟨W, buf.tail ++ [x]⟩) := by
      simp [smoothStep]
    obtain ⟨b0, bt, rfl⟩ : ∃ b0 bt, buf = b0 :: bt := by
      cases buf with
      | nil => exact absurd hb (by simp; omega)
      | cons b0 bt => exact ⟨b0, bt, rfl⟩
    rw [smoothRun_cons, hstep]
    cases j with
    | zero => simp [slideWin]
    | succ j =>
      have hb' : (List.tail (b0 :: bt) ++ [x]).length = W := by
        simp at hb ⊢; omega
      have ih2 := ih (List.tail (b0 :: bt) ++ [x]) hb' j (by simpa using hj)
      simp only [List.getD_cons_succ]
      rw [ih2]
      have hwin : slideWin (b0 :: bt) (x :: xs) (j + 1)
          = slideWin (List.tail (b0 :: bt) ++ [x]) xs j := by
        simp [slideWin, List.append_assoc]
      rw [hwin]

/-- When all accumulated values are integral, the int-truncating
accumulation of `SmoothingFilter` computes the exact sum. -/

theorem accInt_foldl_int :
    ∀ (l : List ℚ) (a : ℤ), (∀ x ∈ l, ∃ m : ℤ, x = (m : ℚ)) →
      ((l.foldl (fun num x => cTrunc ((num : ℚ) + x)) a : ℤ) : ℚ) = (a : ℚ) + l.sum := by
  intro l
  induction l with
  | nil => intro a _; simp
  | cons x xs ih =>
    intro a hint
    obtain ⟨m, rfl⟩ := hint x (by simp)
    have hx : cTrunc ((a : ℚ) + (m : ℚ)) = a + m := by
      rw [show ((a : ℚ) + (m : ℚ)) = (((a + m : ℤ)) : ℚ) by push_cast; ring, cTrunc_intCast]
    simp only [List.foldl_cons, hx, ih _ (fun y hy => hint y (by simp [hy])), List.sum_cons]
    push_cast
    ring

theorem accInt_int (l : List ℚ) (h : ∀ x ∈ l, ∃ m : ℤ, x = (m : ℚ)) :
    ((accInt l : ℤ) : ℚ) = l.sum := by
  have := accInt_foldl_int l 0 h
  simpa [accInt] using this

/-- C2 is refuted: with window length W = 3 (the ECG smoother), the
third call still returns its input unchanged (here 12), not the
arithmetic mean 4 of the first three inputs, because the fill branch
`if (i < WindowsLen)` passes through for the first W calls, not W - 1. -/

theorem C2_counterexample :
    ((smoothRun 3 (initSmooth 3) [0, 0, 12]).1).getD 2 0 = 12 ∧
      ¬ ((smoothRun 3 (initSmooth 3) [0, 0, 12]).1).getD 2 0 = ((0 : ℚ) + 0 + 12) / 3 := by
  have h : ((smoothRun 3 (initSmooth 3) [0, 0, 12]).1).getD 2 0 = 12 := by decide
  refine ⟨h, ?_⟩
  rw [h]
  norm_num

/-- C2 (amended): for every smoother instance with window length W, the
first W calls (not W - 1) return the input unchanged; the (W+1)-th and
every subsequent call returns the int-accumulated mean of the last W
inputs, which equals the exact arithmetic mean whenever all inputs are
integral values. -/

theorem C2_smoother_warmup_and_mean (W : ℕ) (hW : 0 < W) (inputs : List ℚ) :
    (∀ n, n < W →
      ((smoothRun W (initSmooth W) inputs).1).getD n 0 = inputs.getD n 0) ∧
    (∀ n, W ≤ n → n < inputs.length →
      ((smoothRun W (initSmooth W) inputs).1).getD n 0
        = ((accInt ((inputs.take (n + 1)).drop (n + 1 - W)) : ℤ) : ℚ) / W) ∧
    ((∀ x ∈ inputs, ∃ m : ℤ, x = (m : ℚ)) → ∀ n, W ≤ n → n < inputs.length →
      ((smoothRun W (initSmooth W) inputs).1).getD n 0
        = ((inputs.take (n + 1)).drop (n + 1 - W)).sum / W) := by
  by_cases hlen : inputs.length ≤ W
  · have hfill := smoothRun_fill W inputs [] (by simpa using hlen)
    simp only [List.length_nil, List.nil_append, Nat.sub_zero, Nat.zero_add] at hfill
    have hfill' : smoothRun W (initSmooth W) inputs
        = (inputs, ⟨inputs.length, inputs ++ List.replicate (W - inputs.length) 0⟩) := hfill
    have houts : (smoothRun W (initSmooth W) inputs).1 = inputs := by
      rw [hfill']
    exact ⟨fun n _ => by rw [houts], fun n h1 h2 => absurd h2 (by omega),
      fun _ n h1 h2 => absurd h2 (by omega)⟩
  · push_neg at hlen
    have htl : (inputs.take W).length = W := by simp; omega
    have hfill := smoothRun_fill W (inputs.take W) [] (by simp)
    simp only [List.length_nil, List.nil_append, Nat.sub_zero, Nat.zero_add, htl,
      Nat.sub_self, List.replicate_zero, List.append_nil] at hfill
    have hfill' : smoothRun W (initSmooth W) (inputs.take W)
        = (inputs.take W, ⟨W, inputs.take W⟩) := hfill
    have hsplit : inputs.take W ++ inputs.drop W = inputs := List.take_append_drop W inputs
    have happ := smoothRun_append W (initSmooth W) (inputs.take W) (inputs.drop W)
    rw [hsplit] at happ
    have houts2 : (smoothRun W (initSmooth W) inputs).1
        = inputs.take W ++ (smoothRun W ⟨W, inputs.take W⟩ (inputs.drop W)).1 := by
      rw [happ, hfill']
    have key : ∀ n, W ≤ n → n < inputs.length →
        ((smoothRun W (initSmooth W) inputs).1).getD n 0
          = ((accInt ((inputs.take (n + 1)).drop (n + 1 - W)) : ℤ) : ℚ) / W := by
      intro n h1 h2
      rw [houts2]
      rw [List.getD_append_right _ _ _ _ (by rw [htl]; exact h1)]
      rw [htl]
      have hj : n - W < (inputs.drop W).length := by simp; omega
      rw [smoothRun_slide W hW (inputs.drop W) (inputs.take W) htl (n - W) hj]
      have h1' : W + (n - W + 1) = n + 1 := by omega
      have h2' : n - W + 1 = n + 1 - W := by omega
      rw [slideWin, ← List.take_add, h1', h2']
    refine ⟨?_, key, ?_⟩
    · intro n hn
      have hn2 : n < inputs.length := by omega
      rw [houts2]
      rw [List.getD_append _ _ _ _ (by rw [htl]; exact hn)]
      rw [List.getD_eq_getElem _ _ (by rw [htl]; exact hn),
        List.getD_eq_getElem _ _ hn2]
      simp [List.getElem_take]
    · intro hint n h1 h2
      rw [key n h1 h2]
      have hsub : ∀ x ∈ (inputs.take (n + 1)).drop (n + 1 - W), ∃ m : ℤ, x = (m : ℚ) :=
        fun x hx => hint x (List.take_subset _ _ (List.drop_subset _ _ hx))
      rw [accInt_int _ hsub]

/-- C2 witness: the amended theorem applied at W = 3 and the concrete
input stream 1, 2, 3, 4. -/

theorem C2_witness :
    (0 : ℕ) < 3 ∧
      ((smoothRun 3 (initSmooth 3) [(1 : ℚ), 2, 3, 4]).1).getD 3 0
        = ((accInt (([(1 : ℚ), 2, 3, 4].take 4).drop 1) : ℤ) : ℚ) / 3 :=
  ⟨by norm_num,
    (C2_smoother_warmup_and_mean 3 (by norm_num) [1, 2, 3, 4]).2.1 3 (by norm_num) (by norm_num)⟩

/-- C3 is refuted for the SpO2 channel: `InitSPO2` leaves the analysis
window index, threshold, peak timestamps, rate, rate-average accumulator
(`hr_cnt`), ratio history and cool-down counter untouched — here a state
with `hr_cnt = 3`, `adjust_wait_cnt = 1` and a non-zero ratio history
keeps all of them across `InitSPO2`. -/

theorem C3_counterexample :
    (SPO2.InitSPO2 spo2DirtyState).hrCnt = 3 ∧
    ¬ (SPO2.InitSPO2 spo2DirtyState).hrCnt = 0 ∧
    (SPO2.InitSPO2 spo2DirtyState).adjustWaitCnt = 1 ∧
    (SPO2.InitSPO2 spo2DirtyState).rValueBuf = [800, 810, 820, 830, 840] ∧
    (SPO2.InitSPO2 spo2DirtyState).heartRate = 72 ∧
    (SPO2.InitSPO2 spo2DirtyState).waveIndex = 42 ∧
    (SPO2.InitSPO2 spo2DirtyState).highWinRED = ⟨7, 8, 9⟩ := by
  refine ⟨rfl, ?_, rfl, rfl, rfl, rfl, rfl⟩
  decide

/-- C3 (amended): `InitECG` and `InitRESP` re-zero their channel's
filter delay lines, wave window, index, threshold, peak timestamps and
rate (and `s_peak2peak` for RESP) but leave the smoother ring and fill
counter untouched; `InitSPO2` only zeroes the two lowpass delay lines
and sets the LED drive to 240, leaving all other SpO2 processing state
unchanged; no channel's `Init` affects another channel's state. -/
theorem C3_init_zeroing :
    (∀ s : ECG.State,
      (ECG.InitECG s).notchWin = zeroWin ∧ (ECG.InitECG s).lowWin = zeroWin ∧
      (ECG.InitECG s).highWin = zeroWin ∧
      (ECG.InitECG s).wave = List.replicate 300 0 ∧
      (ECG.InitECG s).waveIndex = 0 ∧ (ECG.InitECG s).peakThreshold = 0 ∧
      (ECG.InitECG s).lastPeak = 0 ∧ (ECG.InitECG s).currentPeak = 0 ∧
      (ECG.InitECG s).heartRate = 0 ∧ (ECG.InitECG s).smooth = s.smooth) ∧
    (∀ s : RESP.State,
      (RESP.InitRESP s).notchWin = zeroWin ∧ (RESP.InitRESP s).lowWin = zeroWin ∧
      (RESP.InitRESP s).wave = List.replicate 1000 0 ∧
      (RESP.InitRESP s).waveIndex = 0 ∧ (RESP.InitRESP s).peakThreshold = 0 ∧
      (RESP.InitRESP s).lastPeak = 0 ∧ (RESP.InitRESP s).currentPeak = 0 ∧
      (RESP.InitRESP s).breathRate = 0 ∧ (RESP.InitRESP s).s_peak2peak = 0 ∧
      (RESP.InitRESP s).smooth = s.smooth) ∧
    (∀ sys : SysState,
      (sysInitECG sys).resp = sys.resp ∧ (sysInitECG sys).spo2 = sys.spo2) ∧
    (∀ sys : SysState,
      (sysInitRESP sys).ecg = sys.ecg ∧ (sysInitRESP sys).spo2 = sys.spo2) ∧
    (∀ sys : SysState,
      (sysInitSPO2 sys).spo2 = SPO2.InitSPO2 sys.spo2 ∧
      (sysInitSPO2 sys).ecg = sys.ecg ∧ (sysInitSPO2 sys).resp = sys.resp) ∧
    (∀ s : SPO2.State,
      (SPO2.InitSPO2 s).lowWinRED = zeroWin ∧ (SPO2.InitSPO2 s).lowWinIR = zeroWin ∧
      (SPO2.InitSPO2 s).sDACdata = 240 ∧
      (SPO2.InitSPO2 s).highWinRED = s.highWinRED ∧
      (SPO2.InitSPO2 s).highWinIR = s.highWinIR ∧
      (SPO2.InitSPO2 s).smoothRED = s.smoothRED ∧
      (SPO2.InitSPO2 s).smoothIR = s.smoothIR ∧
      (SPO2.InitSPO2 s).waveRate = s.waveRate ∧
      (SPO2.InitSPO2 s).waveRED = s.waveRED ∧
      (SPO2.InitSPO2 s).waveIR = s.waveIR ∧
      (SPO2.InitSPO2 s).waveIndex = s.waveIndex ∧
      (SPO2.InitSPO2 s).peakThreshold = s.peakThreshold ∧
      (SPO2.InitSPO2 s).lastPeak = s.lastPeak ∧
      (SPO2.InitSPO2 s).currentPeak = s.currentPeak ∧
      (SPO2.InitSPO2 s).heartRate = s.heartRate ∧
      (SPO2.InitSPO2 s).hrBuf = s.hrBuf ∧
      (SPO2.InitSPO2 s).hrCnt = s.hrCnt ∧
      (SPO2.InitSPO2 s).peak2peakRED = s.peak2peakRED ∧
      (SPO2.InitSPO2 s).peak2peakIR = s.peak2peakIR ∧
      (SPO2.InitSPO2 s).valueR = s.valueR ∧
      (SPO2.InitSPO2 s).valueSPO2 = s.valueSPO2 ∧
      (SPO2.InitSPO2 s).rValueBuf = s.rValueBuf ∧
      (SPO2.InitSPO2 s).adjustWaitCnt = s.adjustWaitCnt) :=
  ⟨fun _ => ⟨rfl, rfl, rfl, rfl, rfl, rfl, rfl, rfl, rfl, rfl⟩,
   fun _ => ⟨rfl, rfl, rfl, rfl, rfl, rfl, rfl, rfl, rfl, rfl⟩,
   fun _ => ⟨rfl, rfl⟩, fun _ => ⟨rfl, rfl⟩, fun _ => ⟨rfl, rfl, rfl⟩,
   fun _ => ⟨rfl, rfl, rfl, rfl, rfl, rfl, rfl, rfl, rfl, rfl, rfl, rfl, rfl, rfl, rfl,
             rfl, rfl, rfl, rfl, rfl, rfl, rfl, rfl⟩⟩

/-- C9: each display routine leaves the channel state (in particular the
stored numeric rate) unchanged, and shows the numeric rate exactly when
the lead is valid and the rate lies in the channel's plausibility band
(ECG: [20, 250] with the lead-off input low; RESP: [5, 100] with the
windowed peak-to-peak inside [600, 3000]); otherwise it emits the error
marker. -/

theorem C9_display_gating :
    (∀ (leadOff : Bool) (s : ECG.State),
      (ECG.OLED_ECG leadOff s).2 = s ∧
      (ECG.OLED_ECG leadOff s).1
        = if leadOff = false ∧ 20 ≤ s.heartRate ∧ s.heartRate ≤ 250
          then DispOut.num s.heartRate else DispOut.err) ∧
    (∀ s : RESP.State,
      (RESP.OLED_RESP s).2 = s ∧
      (RESP.OLED_RESP s).1
        = if (600 ≤ s.s_peak2peak ∧ s.s_peak2peak ≤ 3000)
            ∧ 5 ≤ s.breathRate ∧ s.breathRate ≤ 100
          then DispOut.num s.breathRate else DispOut.err) := by
  constructor
  · intro leadOff s
    cases leadOff <;> unfold ECG.OLED_ECG <;> split_ifs <;> simp_all
  · intro s
    unfold RESP.OLED_RESP
    split_ifs with h1 h2 h3 h4 h5 <;> simp_all <;>
      (exfalso; rcases h1 with h1 | h1 <;> linarith)

/-- C10 (implicit): in `OLED_ECG` the lead-off branch is checked first,
so a disconnected lead always yields the error marker regardless of the
stored heart rate. -/

theorem C10_leadoff_precedence :
    ∀ s : ECG.State, ECG.OLED_ECG true s = (DispOut.err, s) := fun _ => rfl

/-- C5 is refuted: after exactly five rate samples 10..50 the displayed
rate is still 0, not their mean 30; only a sixth sample (60) triggers
the report, and that sixth sample is discarded (the buffer still holds
10..50 and the counter restarts at 0) — so the display updates once per
six detected peaks and one sample in six is dropped. -/

theorem C5_counterexample :
    c5After5.heartRate = 0 ∧
    ¬ c5After5.heartRate = (10 + 20 + 30 + 40 + 50) / 5 ∧
    c5After6.heartRate = 30 ∧
    c5After6.hrBuf = [10, 20, 30, 40, 50] ∧
    c5After6.hrCnt = 0 := by
  refine ⟨rfl, ?_, rfl, rfl, rfl⟩
  decide

/-- C5 (amended): starting from an empty accumulator, the engine stores
the first five instantaneous rate samples without touching the displayed
rate; the sixth detected peak's sample triggers reporting the integer
mean of the five stored samples and is itself discarded, resetting the
accumulator — a batch that consumes six detected peaks per display
update. -/

theorem C5_rate_batch (s : SPO2.State) (r1 r2 r3 r4 r5 r6 : ℤ)
    (hcnt : s.hrCnt = 0) (hbuf : s.hrBuf.length = 5) :
    (SPO2.spo2HrAccum r5 (SPO2.spo2HrAccum r4 (SPO2.spo2HrAccum r3 (SPO2.spo2HrAccum r2
        (SPO2.spo2HrAccum r1 s))))).heartRate = s.heartRate ∧
    (SPO2.spo2HrAccum r6 (SPO2.spo2HrAccum r5 (SPO2.spo2HrAccum r4 (SPO2.spo2HrAccum r3
        (SPO2.spo2HrAccum r2 (SPO2.spo2HrAccum r1 s)))))).heartRate
      = Int.tdiv (r1 + r2 + r3 + r4 + r5) 5 ∧
    (SPO2.spo2HrAccum r6 (SPO2.spo2HrAccum r5 (SPO2.spo2HrAccum r4 (SPO2.spo2HrAccum r3
        (SPO2.spo2HrAccum r2 (SPO2.spo2HrAccum r1 s)))))).hrCnt = 0 ∧
    (SPO2.spo2HrAccum r6 (SPO2.spo2HrAccum r5 (SPO2.spo2HrAccum r4 (SPO2.spo2HrAccum r3
        (SPO2.spo2HrAccum r2 (SPO2.spo2HrAccum r1 s)))))).hrBuf
      = [r1, r2, r3, r4, r5] := by
  obtain ⟨b0, b1, b2, b3, b4, hb⟩ :
      ∃ b0 b1 b2 b3 b4, s.hrBuf = [b0, b1, b2, b3, b4] := by
    rcases hl : s.hrBuf with _ | ⟨b0, _ | ⟨b1, _ | ⟨b2, _ | ⟨b3, _ | ⟨b4, _ | ⟨b5, t⟩⟩⟩⟩⟩⟩ <;>
      first
      | exact ⟨b0, b1, b2, b3, b4, rfl⟩
      | (rw [hl] at hbuf; simp at hbuf)
  simp [SPO2.spo2HrAccum, hcnt, hb, List.set]

/-- C5 witness: the amended theorem applied at the concrete samples
10, 20, 30, 40, 50, 60 from an empty accumulator. -/

theorem C5_witness :
    hrFreshState.hrCnt = 0 ∧ hrFreshState.hrBuf.length = 5 ∧
      (SPO2.spo2HrAccum 60 (SPO2.spo2HrAccum 50 (SPO2.spo2HrAccum 40 (SPO2.spo2HrAccum 30
        (SPO2.spo2HrAccum 20 (SPO2.spo2HrAccum 10 hrFreshState)))))).heartRate
        = Int.tdiv (10 + 20 + 30 + 40 + 50) 5 :=
  ⟨rfl, rfl, (C5_rate_batch hrFreshState 10 20 30 40 50 60 rfl rfl).2.1⟩

/-- C8: for peak timestamps t1 < t2 (u32 millisecond counter values) the
stored instantaneous rate is exactly 60000/(t2-t1) truncated toward zero
(here expressed through ℕ division); the t1 = t2 divide-by-zero case is
outside the claimed domain. -/

theorem C8_rate_formula (t1 t2 : ℕ) (h12 : t1 < t2) (h2 : t2 < 2 ^ 32) :
    calRate ((u32sub t2 t1 : ℕ) : ℚ) = ((60000 / (t2 - t1) : ℕ) : ℤ) := by
  have hsub : u32sub t2 t1 = t2 - t1 := by
    unfold u32sub
    omega
  rw [hsub]
  unfold calRate cTrunc
  have hd : (0 : ℚ) < ((t2 - t1 : ℕ) : ℚ) := by
    have h0 : 0 < t2 - t1 := by omega
    exact_mod_cast h0
  rw [if_pos (by positivity)]
  rw [show ((60000 : ℚ)) = ((60000 : ℕ) : ℚ) by norm_num]
  rw [Rat.floor_natCast_div_natCast]
  norm_cast

/-- C8 witness: timestamps 100 and 500 give rate 150. -/

theorem C8_witness :
    100 < 500 ∧ 500 < 2 ^ 32 ∧
      calRate ((u32sub 500 100 : ℕ) : ℚ) = ((60000 / (500 - 100) : ℕ) : ℤ) :=
  ⟨by norm_num, by norm_num, C8_rate_formula 100 500 (by norm_num) (by norm_num)⟩

theorem clampSpO2_mem (q : ℚ) : 70 ≤ SPO2.clampSpO2 q ∧ SPO2.clampSpO2 q ≤ 100 := by
  unfold SPO2.clampSpO2
  split_ifs <;> constructor <;> linarith

theorem clampSpO2_of_mem (q : ℚ) (h1 : 70 ≤ q) (h2 : q ≤ 100) : SPO2.clampSpO2 q = q := by
  unfold SPO2.clampSpO2
  split_ifs <;> linarith

theorem spo2FromTable_band0 (r : ℤ) (prev : ℚ) (h2 : r ≤ 450) :
    SPO2.spo2FromTable r prev = 99 := by
  have p : r ≤ 450 := h2
  simp only [SPO2.spo2FromTable, if_pos p]

theorem spo2FromTable_band1 (r : ℤ) (prev : ℚ) (h1 : 451 ≤ r) (h2 : r ≤ 470) :
    SPO2.spo2FromTable r prev = 98 := by
  have n0 : ¬ (r ≤ 450) := by omega
  have p : 451 ≤ r ∧ r ≤ 470 := ⟨h1, h2⟩
  simp only [SPO2.spo2FromTable, if_neg n0, if_pos p]

theorem spo2FromTable_band2 (r : ℤ) (prev : ℚ) (h1 : 471 ≤ r) (h2 : r ≤ 510) :
    SPO2.spo2FromTable r prev = 97 := by
  have n0 : ¬ (r ≤ 450) := by omega
  have n1 : ¬ (451 ≤ r ∧ r ≤ 470) := by omega
  have p : 471 ≤ r ∧ r ≤ 510 := ⟨h1, h2⟩
  simp only [SPO2.spo2FromTable, if_neg n0, if_neg n1, if_pos p]

theorem spo2FromTable_band3 (r : ℤ) (prev : ℚ) (h1 : 511 ≤ r) (h2 : r ≤ 540) :
    SPO2.spo2FromTable r prev = 96 := by
  have n0 : ¬ (r ≤ 450) := by omega
  have n1 : ¬ (451 ≤ r ∧ r ≤ 470) := by omega
  have n2 : ¬ (471 ≤ r ∧ r ≤ 510) := by omega
  have p : 511 ≤ r ∧ r ≤ 540 := ⟨h1, h2⟩
  simp only [SPO2.spo2FromTable, if_neg n0, if_neg n1, if_neg n2, if_pos p]

theorem spo2FromTable_band4 (r : ℤ) (prev : ℚ) (h1 : 541 ≤ r) (h2 : r ≤ 580) :
    SPO2.spo2FromTable r prev = 95 := by
  have n0 : ¬ (r ≤ 450) := by omega
  have n1 : ¬ (451 ≤ r ∧ r ≤ 470) := by omega
  have n2 : ¬ (471 ≤ r ∧ r ≤ 510) := by omega
  have n3 : ¬ (511 ≤ r ∧ r ≤ 540) := by omega
  have p : 541 ≤ r ∧ r ≤ 580 := ⟨h1, h2⟩
  simp only [SPO2.spo2FromTable, if_neg n0, if_neg n1, if_neg n2, if_neg n3, if_pos p]

theorem spo2FromTable_band5 (r : ℤ) (prev : ℚ) (h1 : 581 ≤ r) (h2 : r ≤ 600) :
    SPO2.spo2FromTable r prev = 94 := by
  have n0 : ¬ (r ≤ 450) := by omega
  have n1 : ¬ (451 ≤ r ∧ r ≤ 470) := by omega
  have n2 : ¬ (471 ≤ r ∧ r ≤ 510) := by omega
  have n3 : ¬ (511 ≤ r ∧ r ≤ 540) := by omega
  have n4 : ¬ (541 ≤ r ∧ r ≤ 580) := by omega
  have p : 581 ≤ r ∧ r ≤ 600 := ⟨h1, h2⟩
  simp only [SPO2.spo2FromTable, if_neg n0, if_neg n1, if_neg n2, if_neg n3, if_neg n4, if_pos p]

theorem spo2FromTable_band6 (r : ℤ) (prev : ℚ) (h1 : 601 ≤ r) (h2 : r ≤ 620) :
    SPO2.spo2FromTable r prev = 93 := by
  have n0 : ¬ (r ≤ 450) := by omega
  have n1 : ¬ (451 ≤ r ∧ r ≤ 470) := by omega
  have n2 : ¬ (471 ≤ r ∧ r ≤ 510) := by omega
  have n3 : ¬ (511 ≤ r ∧ r ≤ 540) := by omega
  have n4 : ¬ (541 ≤ r ∧ r ≤ 580) := by omega
  have n5 : ¬ (581 ≤ r ∧ r ≤ 600) := by omega
  have p : 601 ≤ r ∧ r ≤ 620 := ⟨h1, h2⟩
  simp only [SPO2.spo2FromTable, if_neg n0, if_neg n1, if_neg n2, if_neg n3, if_neg n4, if_neg n5, if_pos p]

theorem spo2FromTable_band7 (r : ℤ) (prev : ℚ) (h1 : 621 ≤ r) (h2 : r ≤ 640) :
    SPO2.spo2FromTable r prev = 92 := by
  have n0 : ¬ (r ≤ 450) := by omega
  have n1 : ¬ (451 ≤ r ∧ r ≤ 470) := by omega
  have n2 : ¬ (471 ≤ r ∧ r ≤ 510) := by omega
  have n3 : ¬ (511 ≤ r ∧ r ≤ 540) := by omega
  have n4 : ¬ (541 ≤ r ∧ r ≤ 580) := by omega
  have n5 : ¬ (581 ≤ r ∧ r ≤ 600) := by omega
  have n6 : ¬ (601 ≤ r ∧ r ≤ 620) := by omega
  have p : 621 ≤ r ∧ r ≤ 640 := ⟨h1, h2⟩
  simp only [SPO2.spo2FromTable, if_neg n0, if_neg n1, if_neg n2, if_neg n3, if_neg n4, if_neg n5, if_neg n6, if_pos p]

theorem spo2FromTable_band8 (r : ℤ) (prev : ℚ) (h1 : 641 ≤ r) (h2 : r ≤ 680) :
    SPO2.spo2FromTable r prev = 91 := by
  have n0 : ¬ (r ≤ 450) := by omega
  have n1 : ¬ (451 ≤ r ∧ r ≤ 470) := by omega
  have n2 : ¬ (471 ≤ r ∧ r ≤ 510) := by omega
  have n3 : ¬ (511 ≤ r ∧ r ≤ 540) := by omega
  have n4 : ¬ (541 ≤ r ∧ r ≤ 580) := by omega
  have n5 : ¬ (581 ≤ r ∧ r ≤ 600) := by omega
  have n6 : ¬ (601 ≤ r ∧ r ≤ 620) := by omega
  have n7 : ¬ (621 ≤ r ∧ r ≤ 640) := by omega
  have p : 641 ≤ r ∧ r ≤ 680 := ⟨h1, h2⟩
  simp only [SPO2.spo2FromTable, if_neg n0, if_neg n1, if_neg n2, if_neg n3, if_neg n4, if_neg n5, if_neg n6, if_neg n7, if_pos p]

theorem spo2FromTable_band9 (r : ℤ) (prev : ℚ) (h1 : 681 ≤ r) (h2 : r ≤ 720) :
    SPO2.spo2FromTable r prev = 90 := by
  have n0 : ¬ (r ≤ 450) := by omega
  have n1 : ¬ (451 ≤ r ∧ r ≤ 470) := by omega
  have n2 : ¬ (471 ≤ r ∧ r ≤ 510) := by omega
  have n3 : ¬ (511 ≤ r ∧ r ≤ 540) := by omega
  have n4 : ¬ (541 ≤ r ∧ r ≤ 580) := by omega
  have n5 : ¬ (581 ≤ r ∧ r ≤ 600) := by omega
  have n6 : ¬ (601 ≤ r ∧ r ≤ 620) := by omega
  have n7 : ¬ (621 ≤ r ∧ r ≤ 640) := by omega
  have n8 : ¬ (641 ≤ r ∧ r ≤ 680) := by omega
  have p : 681 ≤ r ∧ r ≤ 720 := ⟨h1, h2⟩
  simp only [SPO2.spo2FromTable, if_neg n0, if_neg n1, if_neg n2, if_neg n3, if_neg n4, if_neg n5, if_neg n6, if_neg n7, if_neg n8, if_pos p]

theorem spo2FromTable_band10 (r : ℤ) (prev : ℚ) (h1 : 721 ≤ r) (h2 : r ≤ 800) :
    SPO2.spo2FromTable r prev = 89 := by
  have n0 : ¬ (r ≤ 450) := by omega
  have n1 : ¬ (451 ≤ r ∧ r ≤ 470) := by omega
  have n2 : ¬ (471 ≤ r ∧ r ≤ 510) := by omega
  have n3 : ¬ (511 ≤ r ∧ r ≤ 540) := by omega
  have n4 : ¬ (541 ≤ r ∧ r ≤ 580) := by omega
  have n5 : ¬ (581 ≤ r ∧ r ≤ 600) := by omega
  have n6 : ¬ (601 ≤ r ∧ r ≤ 620) := by omega
  have n7 : ¬ (621 ≤ r ∧ r ≤ 640) := by omega
  have n8 : ¬ (641 ≤ r ∧ r ≤ 680) := by omega
  have n9 : ¬ (681 ≤ r ∧ r ≤ 720) := by omega
  have p : 721 ≤ r ∧ r ≤ 800 := ⟨h1, h2⟩
  simp only [SPO2.spo2FromTable, if_neg n0, if_neg n1, if_neg n2, if_neg n3, if_neg n4, if_neg n5, if_neg n6, if_neg n7, if_neg n8, if_neg n9, if_pos p]

theorem spo2FromTable_band11 (r : ℤ) (prev : ℚ) (h1 : 801 ≤ r) (h2 : r ≤ 940) :
    SPO2.spo2FromTable r prev = 88 := by
  have n0 : ¬ (r ≤ 450) := by omega
  have n1 : ¬ (451 ≤ r ∧ r ≤ 470) := by omega
  have n2 : ¬ (471 ≤ r ∧ r ≤ 510) := by omega
  have n3 : ¬ (511 ≤ r ∧ r ≤ 540) := by omega
  have n4 : ¬ (541 ≤ r ∧ r ≤ 580) := by omega
  have n5 : ¬ (581 ≤ r ∧ r ≤ 600) := by omega
  have n6 : ¬ (601 ≤ r ∧ r ≤ 620) := by omega
  have n7 : ¬ (621 ≤ r ∧ r ≤ 640) := by omega
  have n8 : ¬ (641 ≤ r ∧ r ≤ 680) := by omega
  have n9 : ¬ (681 ≤ r ∧ r ≤ 720) := by omega
  have n10 : ¬ (721 ≤ r ∧ r ≤ 800) := by omega
  have p : 801 ≤ r ∧ r ≤ 940 := ⟨h1, h2⟩
  simp only [SPO2.spo2FromTable, if_neg n0, if_neg n1, if_neg n2, if_neg n3, if_neg n4, if_neg n5, if_neg n6, if_neg n7, if_neg n8, if_neg n9, if_neg n10, if_pos p]

theorem spo2FromTable_band12 (r : ℤ) (prev : ℚ) (h1 : 941 ≤ r) (h2 : r ≤ 980) :
    SPO2.spo2FromTable r prev = 87 := by
  have n0 : ¬ (r ≤ 450) := by omega
  have n1 : ¬ (451 ≤ r ∧ r ≤ 470) := by omega
  have n2 : ¬ (471 ≤ r ∧ r ≤ 510) := by omega
  have n3 : ¬ (511 ≤ r ∧ r ≤ 540) := by omega
  have n4 : ¬ (541 ≤ r ∧ r ≤ 580) := by omega
  have n5 : ¬ (581 ≤ r ∧ r ≤ 600) := by omega
  have n6 : ¬ (601 ≤ r ∧ r ≤ 620) := by omega
  have n7 : ¬ (621 ≤ r ∧ r ≤ 640) := by omega
  have n8 : ¬ (641 ≤ r ∧ r ≤ 680) := by omega
  have n9 : ¬ (681 ≤ r ∧ r ≤ 720) := by omega
  have n10 : ¬ (721 ≤ r ∧ r ≤ 800) := by omega
  have n11 : ¬ (801 ≤ r ∧ r ≤ 940) := by omega
  have p : 941 ≤ r ∧ r ≤ 980 := ⟨h1, h2⟩
  simp only [SPO2.spo2FromTable, if_neg n0, if_neg n1, if_neg n2, if_neg n3, if_neg n4, if_neg n5, if_neg n6, if_neg n7, if_neg n8, if_neg n9, if_neg n10, if_neg n11, if_pos p]

theorem spo2FromTable_band13 (r : ℤ) (prev : ℚ) (h1 : 981 ≤ r) (h2 : r ≤ 1020) :
    SPO2.spo2FromTable r prev = 86 := by
  have n0 : ¬ (r ≤ 450) := by omega
  have n1 : ¬ (451 ≤ r ∧ r ≤ 470) := by omega
  have n2 : ¬ (471 ≤ r ∧ r ≤ 510) := by omega
  have n3 : ¬ (511 ≤ r ∧ r ≤ 540) := by omega
  have n4 : ¬ (541 ≤ r ∧ r ≤ 580) := by omega
  have n5 : ¬ (581 ≤ r ∧ r ≤ 600) := by omega
  have n6 : ¬ (601 ≤ r ∧ r ≤ 620) := by omega
  have n7 : ¬ (621 ≤ r ∧ r ≤ 640) := by omega
  have n8 : ¬ (641 ≤ r ∧ r ≤ 680) := by omega
  have n9 : ¬ (681 ≤ r ∧ r ≤ 720) := by omega
  have n10 : ¬ (721 ≤ r ∧ r ≤ 800) := by omega
  have n11 : ¬ (801 ≤ r ∧ r ≤ 940) := by omega
  have n12 : ¬ (941 ≤ r ∧ r ≤ 980) := by omega
  have p : 981 ≤ r ∧ r ≤ 1020 := ⟨h1, h2⟩
  simp only [SPO2.spo2FromTable, if_neg n0, if_neg n1, if_neg n2, if_neg n3, if_neg n4, if_neg n5, if_neg n6, if_neg n7, if_neg n8, if_neg n9, if_neg n10, if_neg n11, if_neg n12, if_pos p]

theorem spo2FromTable_band14 (r : ℤ) (prev : ℚ) (h1 : 1021 ≤ r) (h2 : r ≤ 1060) :
    SPO2.spo2FromTable r prev = 85 := by
  have n0 : ¬ (r ≤ 450) := by omega
  have n1 : ¬ (451 ≤ r ∧ r ≤ 470) := by omega
  have n2 : ¬ (471 ≤ r ∧ r ≤ 510) := by omega
  have n3 : ¬ (511 ≤ r ∧ r ≤ 540) := by omega
  have n4 : ¬ (541 ≤ r ∧ r ≤ 580) := by omega
  have n5 : ¬ (581 ≤ r ∧ r ≤ 600) := by omega
  have n6 : ¬ (601 ≤ r ∧ r ≤ 620) := by omega
  have n7 : ¬ (621 ≤ r ∧ r ≤ 640) := by omega
  have n8 : ¬ (641 ≤ r ∧ r ≤ 680) := by omega
  have n9 : ¬ (681 ≤ r ∧ r ≤ 720) := by omega
  have n10 : ¬ (721 ≤ r ∧ r ≤ 800) := by omega
  have n11 : ¬ (801 ≤ r ∧ r ≤ 940) := by omega
  have n12 : ¬ (941 ≤ r ∧ r ≤ 980) := by omega
  have n13 : ¬ (981 ≤ r ∧ r ≤ 1020) := by omega
  have p : 1021 ≤ r ∧ r ≤ 1060 := ⟨h1, h2⟩
  simp only [SPO2.spo2FromTable, if_neg n0, if_neg n1, if_neg n2, if_neg n3, if_neg n4, if_neg n5, if_neg n6, if_neg n7, if_neg n8, if_neg n9, if_neg n10, if_neg n11, if_neg n12, if_neg n13, if_pos p]

theorem spo2FromTable_band15 (r : ℤ) (prev : ℚ) (h1 : 1061 ≤ r) (h2 : r ≤ 1080) :
    SPO2.spo2FromTable r prev = 84 := by
  have n0 : ¬ (r ≤ 450) := by omega
  have n1 : ¬ (451 ≤ r ∧ r ≤ 470) := by omega
  have n2 : ¬ (471 ≤ r ∧ r ≤ 510) := by omega
  have n3 : ¬ (511 ≤ r ∧ r ≤ 540) := by omega
  have n4 : ¬ (541 ≤ r ∧ r ≤ 580) := by omega
  have n5 : ¬ (581 ≤ r ∧ r ≤ 600) := by omega
  have n6 : ¬ (601 ≤ r ∧ r ≤ 620) := by omega
  have n7 : ¬ (621 ≤ r ∧ r ≤ 640) := by omega
  have n8 : ¬ (641 ≤ r ∧ r ≤ 680) := by omega
  have n9 : ¬ (681 ≤ r ∧ r ≤ 720) := by omega
  have n10 : ¬ (721 ≤ r ∧ r ≤ 800) := by omega
  have n11 : ¬ (801 ≤ r ∧ r ≤ 940) := by omega
  have n12 : ¬ (941 ≤ r ∧ r ≤ 980) := by omega
  have n13 : ¬ (981 ≤ r ∧ r ≤ 1020) := by omega
  have n14 : ¬ (1021 ≤ r ∧ r ≤ 1060) := by omega
  have p : 1061 ≤ r ∧ r ≤ 1080 := ⟨h1, h2⟩
  simp only [SPO2.spo2FromTable, if_neg n0, if_neg n1, if_neg n2, if_neg n3, if_neg n4, if_neg n5, if_neg n6, if_neg n7, if_neg n8, if_neg n9, if_neg n10, if_neg n11, if_neg n12, if_neg n13, if_neg n14, if_pos p]

theorem spo2FromTable_band16 (r : ℤ) (prev : ℚ) (h1 : 1081 ≤ r) (h2 : r ≤ 1100) :
    SPO2.spo2FromTable r prev = 83 := by
  have n0 : ¬ (r ≤ 450) := by omega
  have n1 : ¬ (451 ≤ r ∧ r ≤ 470) := by omega
  have n2 : ¬ (471 ≤ r ∧ r ≤ 510) := by omega
  have n3 : ¬ (511 ≤ r ∧ r ≤ 540) := by omega
  have n4 : ¬ (541 ≤ r ∧ r ≤ 580) := by omega
  have n5 : ¬ (581 ≤ r ∧ r ≤ 600) := by omega
  have n6 : ¬ (601 ≤ r ∧ r ≤ 620) := by omega
  have n7 : ¬ (621 ≤ r ∧ r ≤ 640) := by omega
  have n8 : ¬ (641 ≤ r ∧ r ≤ 680) := by omega
  have n9 : ¬ (681 ≤ r ∧ r ≤ 720) := by omega
  have n10 : ¬ (721 ≤ r ∧ r ≤ 800) := by omega
  have n11 : ¬ (801 ≤ r ∧ r ≤ 940) := by omega
  have n12 : ¬ (941 ≤ r ∧ r ≤ 980) := by omega
  have n13 : ¬ (981 ≤ r ∧ r ≤ 1020) := by omega
  have n14 : ¬ (1021 ≤ r ∧ r ≤ 1060) := by omega
  have n15 : ¬ (1061 ≤ r ∧ r ≤ 1080) := by omega
  have p : 1081 ≤ r ∧ r ≤ 1100 := ⟨h1, h2⟩
  simp only [SPO2.spo2FromTable, if_neg n0, if_neg n1, if_neg n2, if_neg n3, if_neg n4, if_neg n5, if_neg n6, if_neg n7, if_neg n8, if_neg n9, if_neg n10, if_neg n11, if_neg n12, if_neg n13, if_neg n14, if_neg n15, if_pos p]

theorem spo2FromTable_band17 (r : ℤ) (prev : ℚ) (h1 : 1101 ≤ r) (h2 : r ≤ 1120) :
    SPO2.spo2FromTable r prev = 82 := by
  have n0 : ¬ (r ≤ 450) := by omega
  have n1 : ¬ (451 ≤ r ∧ r ≤ 470) := by omega
  have n2 : ¬ (471 ≤ r ∧ r ≤ 510) := by omega
  have n3 : ¬ (511 ≤ r ∧ r ≤ 540) := by omega
  have n4 : ¬ (541 ≤ r ∧ r ≤ 580) := by omega
  have n5 : ¬ (581 ≤ r ∧ r ≤ 600) := by omega
  have n6 : ¬ (601 ≤ r ∧ r ≤ 620) := by omega
  have n7 : ¬ (621 ≤ r ∧ r ≤ 640) := by omega
  have n8 : ¬ (641 ≤ r ∧ r ≤ 680) := by omega
  have n9 : ¬ (681 ≤ r ∧ r ≤ 720) := by omega
  have n10 : ¬ (721 ≤ r ∧ r ≤ 800) := by omega
  have n11 : ¬ (801 ≤ r ∧ r ≤ 940) := by omega
  have n12 : ¬ (941 ≤ r ∧ r ≤ 980) := by omega
  have n13 : ¬ (981 ≤ r ∧ r ≤ 1020) := by omega
  have n14 : ¬ (1021 ≤ r ∧ r ≤ 1060) := by omega
  have n15 : ¬ (1061 ≤ r ∧ r ≤ 1080) := by omega
  have n16 : ¬ (1081 ≤ r ∧ r ≤ 1100) := by omega
  have p : 1101 ≤ r ∧ r ≤ 1120 := ⟨h1, h2⟩
  simp only [SPO2.spo2FromTable, if_neg n0, if_neg n1, if_neg n2, if_neg n3, if_neg n4, if_neg n5, if_neg n6, if_neg n7, if_neg n8, if_neg n9, if_neg n10, if_neg n11, if_neg n12, if_neg n13, if_neg n14, if_neg n15, if_neg n16, if_pos p]

theorem spo2FromTable_band18 (r : ℤ) (prev : ℚ) (h1 : 1121 ≤ r) (h2 : r ≤ 1150) :
    SPO2.spo2FromTable r prev = 81 := by
  have n0 : ¬ (r ≤ 450) := by omega
  have n1 : ¬ (451 ≤ r ∧ r ≤ 470) := by omega
  have n2 : ¬ (471 ≤ r ∧ r ≤ 510) := by omega
  have n3 : ¬ (511 ≤ r ∧ r ≤ 540) := by omega
  have n4 : ¬ (541 ≤ r ∧ r ≤ 580) := by omega
  have n5 : ¬ (581 ≤ r ∧ r ≤ 600) := by omega
  have n6 : ¬ (601 ≤ r ∧ r ≤ 620) := by omega
  have n7 : ¬ (621 ≤ r ∧ r ≤ 640) := by omega
  have n8 : ¬ (641 ≤ r ∧ r ≤ 680) := by omega
  have n9 : ¬ (681 ≤ r ∧ r ≤ 720) := by omega
  have n10 : ¬ (721 ≤ r ∧ r ≤ 800) := by omega
  have n11 : ¬ (801 ≤ r ∧ r ≤ 940) := by omega
  have n12 : ¬ (941 ≤ r ∧ r ≤ 980) := by omega
  have n13 : ¬ (981 ≤ r ∧ r ≤ 1020) := by omega
  have n14 : ¬ (1021 ≤ r ∧ r ≤ 1060) := by omega
  have n15 : ¬ (1061 ≤ r ∧ r ≤ 1080) := by omega
  have n16 : ¬ (1081 ≤ r ∧ r ≤ 1100) := by omega
  have n17 : ¬ (1101 ≤ r ∧ r ≤ 1120) := by omega
  have p : 1121 ≤ r ∧ r ≤ 1150 := ⟨h1, h2⟩
  simp only [SPO2.spo2FromTable, if_neg n0, if_neg n1, if_neg n2, if_neg n3, if_neg n4, if_neg n5, if_neg n6, if_neg n7, if_neg n8, if_neg n9, if_neg n10, if_neg n11, if_neg n12, if_neg n13, if_neg n14, if_neg n15, if_neg n16, if_neg n17, if_pos p]

theorem spo2FromTable_band19 (r : ℤ) (prev : ℚ) (h1 : 1151 ≤ r) (h2 : r ≤ 1170) :
    SPO2.spo2FromTable r prev = 80 := by
  have n0 : ¬ (r ≤ 450) := by omega
  have n1 : ¬ (451 ≤ r ∧ r ≤ 470) := by omega
  have n2 : ¬ (471 ≤ r ∧ r ≤ 510) := by omega
  have n3 : ¬ (511 ≤ r ∧ r ≤ 540) := by omega
  have n4 : ¬ (541 ≤ r ∧ r ≤ 580) := by omega
  have n5 : ¬ (581 ≤ r ∧ r ≤ 600) := by omega
  have n6 : ¬ (601 ≤ r ∧ r ≤ 620) := by omega
  have n7 : ¬ (621 ≤ r ∧ r ≤ 640) := by omega
  have n8 : ¬ (641 ≤ r ∧ r ≤ 680) := by omega
  have n9 : ¬ (681 ≤ r ∧ r ≤ 720) := by omega
  have n10 : ¬ (721 ≤ r ∧ r ≤ 800) := by omega
  have n11 : ¬ (801 ≤ r ∧ r ≤ 940) := by omega
  have n12 : ¬ (941 ≤ r ∧ r ≤ 980) := by omega
  have n13 : ¬ (981 ≤ r ∧ r ≤ 1020) := by omega
  have n14 : ¬ (1021 ≤ r ∧ r ≤ 1060) := by omega
  have n15 : ¬ (1061 ≤ r ∧ r ≤ 1080) := by omega
  have n16 : ¬ (1081 ≤ r ∧ r ≤ 1100) := by omega
  have n17 : ¬ (1101 ≤ r ∧ r ≤ 1120) := by omega
  have n18 : ¬ (1121 ≤ r ∧ r ≤ 1150) := by omega
  have p : 1151 ≤ r ∧ r ≤ 1170 := ⟨h1, h2⟩
  simp only [SPO2.spo2FromTable, if_neg n0, if_neg n1, if_neg n2, if_neg n3, if_neg n4, if_neg n5, if_neg n6, if_neg n7, if_neg n8, if_neg n9, if_neg n10, if_neg n11, if_neg n12, if_neg n13, if_neg n14, if_neg n15, if_neg n16, if_neg n17, if_neg n18, if_pos p]

theorem spo2FromTable_band20 (r : ℤ) (prev : ℚ) (h1 : 1171 ≤ r) (h2 : r ≤ 1200) :
    SPO2.spo2FromTable r prev = 79 := by
  have n0 : ¬ (r ≤ 450) := by omega
  have n1 : ¬ (451 ≤ r ∧ r ≤ 470) := by omega
  have n2 : ¬ (471 ≤ r ∧ r ≤ 510) := by omega
  have n3 : ¬ (511 ≤ r ∧ r ≤ 540) := by omega
  have n4 : ¬ (541 ≤ r ∧ r ≤ 580) := by omega
  have n5 : ¬ (581 ≤ r ∧ r ≤ 600) := by omega
  have n6 : ¬ (601 ≤ r ∧ r ≤ 620) := by omega
  have n7 : ¬ (621 ≤ r ∧ r ≤ 640) := by omega
  have n8 : ¬ (641 ≤ r ∧ r ≤ 680) := by omega
  have n9 : ¬ (681 ≤ r ∧ r ≤ 720) := by omega
  have n10 : ¬ (721 ≤ r ∧ r ≤ 800) := by omega
  have n11 : ¬ (801 ≤ r ∧ r ≤ 940) := by omega
  have n12 : ¬ (941 ≤ r ∧ r ≤ 980) := by omega
  have n13 : ¬ (981 ≤ r ∧ r ≤ 1020) := by omega
  have n14 : ¬ (1021 ≤ r ∧ r ≤ 1060) := by omega
  have n15 : ¬ (1061 ≤ r ∧ r ≤ 1080) := by omega
  have n16 : ¬ (1081 ≤ r ∧ r ≤ 1100) := by omega
  have n17 : ¬ (1101 ≤ r ∧ r ≤ 1120) := by omega
  have n18 : ¬ (1121 ≤ r ∧ r ≤ 1150) := by omega
  have n19 : ¬ (1151 ≤ r ∧ r ≤ 1170) := by omega
  have p : 1171 ≤ r ∧ r ≤ 1200 := ⟨h1, h2⟩
  simp only [SPO2.spo2FromTable, if_neg n0, if_neg n1, if_neg n2, if_neg n3, if_neg n4, if_neg n5, if_neg n6, if_neg n7, if_neg n8, if_neg n9, if_neg n10, if_neg n11, if_neg n12, if_neg n13, if_neg n14, if_neg n15, if_neg n16, if_neg n17, if_neg n18, if_neg n19, if_pos p]

theorem spo2FromTable_hold (r : ℤ) (prev : ℚ) (h : 1200 < r) :
    SPO2.spo2FromTable r prev = prev := by
  have n0 : ¬ (r ≤ 450) := by omega
  have n1 : ¬ (451 ≤ r ∧ r ≤ 470) := by omega
  have n2 : ¬ (471 ≤ r ∧ r ≤ 510) := by omega
  have n3 : ¬ (511 ≤ r ∧ r ≤ 540) := by omega
  have n4 : ¬ (541 ≤ r ∧ r ≤ 580) := by omega
  have n5 : ¬ (581 ≤ r ∧ r ≤ 600) := by omega
  have n6 : ¬ (601 ≤ r ∧ r ≤ 620) := by omega
  have n7 : ¬ (621 ≤ r ∧ r ≤ 640) := by omega
  have n8 : ¬ (641 ≤ r ∧ r ≤ 680) := by omega
  have n9 : ¬ (681 ≤ r ∧ r ≤ 720) := by omega
  have n10 : ¬ (721 ≤ r ∧ r ≤ 800) := by omega
  have n11 : ¬ (801 ≤ r ∧ r ≤ 940) := by omega
  have n12 : ¬ (941 ≤ r ∧ r ≤ 980) := by omega
  have n13 : ¬ (981 ≤ r ∧ r ≤ 1020) := by omega
  have n14 : ¬ (1021 ≤ r ∧ r ≤ 1060) := by omega
  have n15 : ¬ (1061 ≤ r ∧ r ≤ 1080) := by omega
  have n16 : ¬ (1081 ≤ r ∧ r ≤ 1100) := by omega
  have n17 : ¬ (1101 ≤ r ∧ r ≤ 1120) := by omega
  have n18 : ¬ (1121 ≤ r ∧ r ≤ 1150) := by omega
  have n19 : ¬ (1151 ≤ r ∧ r ≤ 1170) := by omega
  have n20 : ¬ (1171 ≤ r ∧ r ≤ 1200) := by omega
  simp only [SPO2.spo2FromTable, if_neg n0, if_neg n1, if_neg n2, if_neg n3, if_neg n4, if_neg n5, if_neg n6, if_neg n7, if_neg n8, if_neg n9, if_neg n10, if_neg n11, if_neg n12, if_neg n13, if_neg n14, if_neg n15, if_neg n16, if_neg n17, if_neg n18, if_neg n19, if_neg n20]

theorem spo2FromTable_lb0 (r : ℤ) (prev : ℚ) (h : r ≤ 450) :
    (99 : ℚ) ≤ SPO2.spo2FromTable r prev := by
  exact le_of_eq (spo2FromTable_band0 r prev h).symm

theorem spo2FromTable_lb1 (r : ℤ) (prev : ℚ) (h : r ≤ 470) :
    (98 : ℚ) ≤ SPO2.spo2FromTable r prev := by
  by_cases h0 : r ≤ 450
  · exact le_trans (by norm_num) (spo2FromTable_lb0 r prev h0)
  · exact le_of_eq (spo2FromTable_band1 r prev (by omega) h).symm

theorem spo2FromTable_lb2 (r : ℤ) (prev : ℚ) (h : r ≤ 510) :
    (97 : ℚ) ≤ SPO2.spo2FromTable r prev := by
  by_cases h0 : r ≤ 470
  · exact le_trans (by norm_num) (spo2FromTable_lb1 r prev h0)
  · exact le_of_eq (spo2FromTable_band2 r prev (by omega) h).symm

theorem spo2FromTable_lb3 (r : ℤ) (prev : ℚ) (h : r ≤ 540) :
    (96 : ℚ) ≤ SPO2.spo2FromTable r prev := by
  by_cases h0 : r ≤ 510
  · exact le_trans (by norm_num) (spo2FromTable_lb2 r prev h0)
  · exact le_of_eq (spo2FromTable_band3 r prev (by omega) h).symm

theorem spo2FromTable_lb4 (r : ℤ) (prev : ℚ) (h : r ≤ 580) :
    (95 : ℚ) ≤ SPO2.spo2FromTable r prev := by
  by_cases h0 : r ≤ 540
  · exact le_trans (by norm_num) (spo2FromTable_lb3 r prev h0)
  · exact le_of_eq (spo2FromTable_band4 r prev (by omega) h).symm

theorem spo2FromTable_lb5 (r : ℤ) (prev : ℚ) (h : r ≤ 600) :
    (94 : ℚ) ≤ SPO2.spo2FromTable r prev := by
  by_cases h0 : r ≤ 580
  · exact le_trans (by norm_num) (spo2FromTable_lb4 r prev h0)
  · exact le_of_eq (spo2FromTable_band5 r prev (by omega) h).symm

theorem spo2FromTable_lb6 (r : ℤ) (prev : ℚ) (h : r ≤ 620) :
    (93 : ℚ) ≤ SPO2.spo2FromTable r prev := by
  by_cases h0 : r ≤ 600
  · exact le_trans (by norm_num) (spo2FromTable_lb5 r prev h0)
  · exact le_of_eq (spo2FromTable_band6 r prev (by omega) h).symm

theorem spo2FromTable_lb7 (r : ℤ) (prev : ℚ) (h : r ≤ 640) :
    (92 : ℚ) ≤ SPO2.spo2FromTable r prev := by
  by_cases h0 : r ≤ 620
  · exact le_trans (by norm_num) (spo2FromTable_lb6 r prev h0)
  · exact le_of_eq (spo2FromTable_band7 r prev (by omega) h).symm

theorem spo2FromTable_lb8 (r : ℤ) (prev : ℚ) (h : r ≤ 680) :
    (91 : ℚ) ≤ SPO2.spo2FromTable r prev := by
  by_cases h0 : r ≤ 640
  · exact le_trans (by norm_num) (spo2FromTable_lb7 r prev h0)
  · exact le_of_eq (spo2FromTable_band8 r prev (by omega) h).symm

theorem spo2FromTable_lb9 (r : ℤ) (prev : ℚ) (h : r ≤ 720) :
    (90 : ℚ) ≤ SPO2.spo2FromTable r prev := by
  by_cases h0 : r ≤ 680
  · exact le_trans (by norm_num) (spo2FromTable_lb8 r prev h0)
  · exact le_of_eq (spo2FromTable_band9 r prev (by omega) h).symm

theorem spo2FromTable_lb10 (r : ℤ) (prev : ℚ) (h : r ≤ 800) :
    (89 : ℚ) ≤ SPO2.spo2FromTable r prev := by
  by_cases h0 : r ≤ 720
  · exact le_trans (by norm_num) (spo2FromTable_lb9 r prev h0)
  · exact le_of_eq (spo2FromTable_band10 r prev (by omega) h).symm

theorem spo2FromTable_lb11 (r : ℤ) (prev : ℚ) (h : r ≤ 940) :
    (88 : ℚ) ≤ SPO2.spo2FromTable r prev := by
  by_cases h0 : r ≤ 800
  · exact le_trans (by norm_num) (spo2FromTable_lb10 r prev h0)
  · exact le_of_eq (spo2FromTable_band11 r prev (by omega) h).symm

theorem spo2FromTable_lb12 (r : ℤ) (prev : ℚ) (h : r ≤ 980) :
    (87 : ℚ) ≤ SPO2.spo2FromTable r prev := by
  by_cases h0 : r ≤ 940
  · exact le_trans (by norm_num) (spo2FromTable_lb11 r prev h0)
  · exact le_of_eq (spo2FromTable_band12 r prev (by omega) h).symm

theorem spo2FromTable_lb13 (r : ℤ) (prev : ℚ) (h : r ≤ 1020) :
    (86 : ℚ) ≤ SPO2.spo2FromTable r prev := by
  by_cases h0 : r ≤ 980
  · exact le_trans (by norm_num) (spo2FromTable_lb12 r prev h0)
  · exact le_of_eq (spo2FromTable_band13 r prev (by omega) h).symm

theorem spo2FromTable_lb14 (r : ℤ) (prev : ℚ) (h : r ≤ 1060) :
    (85 : ℚ) ≤ SPO2.spo2FromTable r prev := by
  by_cases h0 : r ≤ 1020
  · exact le_trans (by norm_num) (spo2FromTable_lb13 r prev h0)
  · exact le_of_eq (spo2FromTable_band14 r prev (by omega) h).symm

theorem spo2FromTable_lb15 (r : ℤ) (prev : ℚ) (h : r ≤ 1080) :
    (84 : ℚ) ≤ SPO2.spo2FromTable r prev := by
  by_cases h0 : r ≤ 1060
  · exact le_trans (by norm_num) (spo2FromTable_lb14 r prev h0)
  · exact le_of_eq (spo2FromTable_band15 r prev (by omega) h).symm

theorem spo2FromTable_lb16 (r : ℤ) (prev : ℚ) (h : r ≤ 1100) :
    (83 : ℚ) ≤ SPO2.spo2FromTable r prev := by
  by_cases h0 : r ≤ 1080
  · exact le_trans (by norm_num) (spo2FromTable_lb15 r prev h0)
  · exact le_of_eq (spo2FromTable_band16 r prev (by omega) h).symm

theorem spo2FromTable_lb17 (r : ℤ) (prev : ℚ) (h : r ≤ 1120) :
    (82 : ℚ) ≤ SPO2.spo2FromTable r prev := by
  by_cases h0 : r ≤ 1100
  · exact le_trans (by norm_num) (spo2FromTable_lb16 r prev h0)
  · exact le_of_eq (spo2FromTable_band17 r prev (by omega) h).symm

theorem spo2FromTable_lb18 (r : ℤ) (prev : ℚ) (h : r ≤ 1150) :
    (81 : ℚ) ≤ SPO2.spo2FromTable r prev := by
  by_cases h0 : r ≤ 1120
  · exact le_trans (by norm_num) (spo2FromTable_lb17 r prev h0)
  · exact le_of_eq (spo2FromTable_band18 r prev (by omega) h).symm

theorem spo2FromTable_lb19 (r : ℤ) (prev : ℚ) (h : r ≤ 1170) :
    (80 : ℚ) ≤ SPO2.spo2FromTable r prev := by
  by_cases h0 : r ≤ 1150
  · exact le_trans (by norm_num) (spo2FromTable_lb18 r prev h0)
  · exact le_of_eq (spo2FromTable_band19 r prev (by omega) h).symm

theorem spo2FromTable_lb20 (r : ℤ) (prev : ℚ) (h : r ≤ 1200) :
    (79 : ℚ) ≤ SPO2.spo2FromTable r prev := by
  by_cases h0 : r ≤ 1170
  · exact le_trans (by norm_num) (spo2FromTable_lb19 r prev h0)
  · exact le_of_eq (spo2FromTable_band20 r prev (by omega) h).symm

theorem spo2FromTable_mono (prev : ℚ) (r1 r2 : ℤ) (h12 : r1 ≤ r2) (h2 : r2 ≤ 1200) :
    SPO2.spo2FromTable r2 prev ≤ SPO2.spo2FromTable r1 prev := by
  rcases (by omega : r2 ≤ 450 ∨ (451 ≤ r2 ∧ r2 ≤ 470) ∨ (471 ≤ r2 ∧ r2 ≤ 510) ∨ (511 ≤ r2 ∧ r2 ≤ 540) ∨ (541 ≤ r2 ∧ r2 ≤ 580) ∨ (581 ≤ r2 ∧ r2 ≤ 600) ∨ (601 ≤ r2 ∧ r2 ≤ 620) ∨ (621 ≤ r2 ∧ r2 ≤ 640) ∨ (641 ≤ r2 ∧ r2 ≤ 680) ∨ (681 ≤ r2 ∧ r2 ≤ 720) ∨ (721 ≤ r2 ∧ r2 ≤ 800) ∨ (801 ≤ r2 ∧ r2 ≤ 940) ∨ (941 ≤ r2 ∧ r2 ≤ 980) ∨ (981 ≤ r2 ∧ r2 ≤ 1020) ∨ (1021 ≤ r2 ∧ r2 ≤ 1060) ∨ (1061 ≤ r2 ∧ r2 ≤ 1080) ∨ (1081 ≤ r2 ∧ r2 ≤ 1100) ∨ (1101 ≤ r2 ∧ r2 ≤ 1120) ∨ (1121 ≤ r2 ∧ r2 ≤ 1150) ∨ (1151 ≤ r2 ∧ r2 ≤ 1170) ∨ (1171 ≤ r2 ∧ r2 ≤ 1200)) with
    h | h | h | h | h | h | h | h | h | h | h | h | h | h | h | h | h | h | h | h | h
  · rw [spo2FromTable_band0 r2 prev h]
    exact spo2FromTable_lb0 r1 prev (by omega)
  · rw [spo2FromTable_band1 r2 prev h.1 h.2]
    exact spo2FromTable_lb1 r1 prev (by omega)
  · rw [spo2FromTable_band2 r2 prev h.1 h.2]
    exact spo2FromTable_lb2 r1 prev (by omega)
  · rw [spo2FromTable_band3 r2 prev h.1 h.2]
    exact spo2FromTable_lb3 r1 prev (by omega)
  · rw [spo2FromTable_band4 r2 prev h.1 h.2]
    exact spo2FromTable_lb4 r1 prev (by omega)
  · rw [spo2FromTable_band5 r2 prev h.1 h.2]
    exact spo2FromTable_lb5 r1 prev (by omega)
  · rw [spo2FromTable_band6 r2 prev h.1 h.2]
    exact spo2FromTable_lb6 r1 prev (by omega)
  · rw [spo2FromTable_band7 r2 prev h.1 h.2]
    exact spo2FromTable_lb7 r1 prev (by omega)
  · rw [spo2FromTable_band8 r2 prev h.1 h.2]
    exact spo2FromTable_lb8 r1 prev (by omega)
  · rw [spo2FromTable_band9 r2 prev h.1 h.2]
    exact spo2FromTable_lb9 r1 prev (by omega)
  · rw [spo2FromTable_band10 r2 prev h.1 h.2]
    exact spo2FromTable_lb10 r1 prev (by omega)
  · rw [spo2FromTable_band11 r2 prev h.1 h.2]
    exact spo2FromTable_lb11 r1 prev (by omega)
  · rw [spo2FromTable_band12 r2 prev h.1 h.2]
    exact spo2FromTable_lb12 r1 prev (by omega)
  · rw [spo2FromTable_band13 r2 prev h.1 h.2]
    exact spo2FromTable_lb13 r1 prev (by omega)
  · rw [spo2FromTable_band14 r2 prev h.1 h.2]
    exact spo2FromTable_lb14 r1 prev (by omega)
  · rw [spo2FromTable_band15 r2 prev h.1 h.2]
    exact spo2FromTable_lb15 r1 prev (by omega)
  · rw [spo2FromTable_band16 r2 prev h.1 h.2]
    exact spo2FromTable_lb16 r1 prev (by omega)
  · rw [spo2FromTable_band17 r2 prev h.1 h.2]
    exact spo2FromTable_lb17 r1 prev (by omega)
  · rw [spo2FromTable_band18 r2 prev h.1 h.2]
    exact spo2FromTable_lb18 r1 prev (by omega)
  · rw [spo2FromTable_band19 r2 prev h.1 h.2]
    exact spo2FromTable_lb19 r1 prev (by omega)
  · rw [spo2FromTable_band20 r2 prev h.1 h.2]
    exact spo2FromTable_lb20 r1 prev (by omega)

/-- C4: every analysis cycle maps the median R of the ratio history
through the calibration table with exact inclusive integer bounds,
monotone non-increasing in R up to 1200; a median above 1200 leaves a
previously stored in-range saturation unchanged (hold); and the stored
saturation after the cycle always lies in [70, 100]. -/

theorem C4_calibration_table :
    (∀ (rp ip : ℚ) (buf : List ℤ) (prev : ℚ),
      70 ≤ (SPO2.calSpO2 rp ip buf prev).spo2 ∧ (SPO2.calSpO2 rp ip buf prev).spo2 ≤ 100) ∧
    (∀ (rp ip : ℚ) (buf : List ℤ) (prev : ℚ),
      (SPO2.calSpO2 rp ip buf prev).spo2
        = SPO2.clampSpO2 (SPO2.spo2FromTable
            (SPO2.medianOfBuf (buf.tail ++ [cTrunc (rp / ip * 1000)])) prev)) ∧
    (∀ (rp ip : ℚ) (buf : List ℤ) (prev : ℚ), 70 ≤ prev → prev ≤ 100 →
      1200 < SPO2.medianOfBuf (buf.tail ++ [cTrunc (rp / ip * 1000)]) →
      (SPO2.calSpO2 rp ip buf prev).spo2 = prev) ∧
    (∀ (prev : ℚ) (r1 r2 : ℤ), r1 ≤ r2 → r2 ≤ 1200 →
      SPO2.spo2FromTable r2 prev ≤ SPO2.spo2FromTable r1 prev) ∧
    (∀ (r : ℤ) (prev : ℚ), 1200 < r → SPO2.spo2FromTable r prev = prev) ∧
    (∀ prev : ℚ,
      SPO2.spo2FromTable 450 prev = 99 ∧
      SPO2.spo2FromTable 451 prev = 98 ∧
      SPO2.spo2FromTable 470 prev = 98 ∧
      SPO2.spo2FromTable 471 prev = 97 ∧
      SPO2.spo2FromTable 510 prev = 97 ∧
      SPO2.spo2FromTable 511 prev = 96 ∧
      SPO2.spo2FromTable 540 prev = 96 ∧
      SPO2.spo2FromTable 541 prev = 95 ∧
      SPO2.spo2FromTable 580 prev = 95 ∧
      SPO2.spo2FromTable 581 prev = 94 ∧
      SPO2.spo2FromTable 600 prev = 94 ∧
      SPO2.spo2FromTable 601 prev = 93 ∧
      SPO2.spo2FromTable 620 prev = 93 ∧
      SPO2.spo2FromTable 621 prev = 92 ∧
      SPO2.spo2FromTable 640 prev = 92 ∧
      SPO2.spo2FromTable 641 prev = 91 ∧
      SPO2.spo2FromTable 680 prev = 91 ∧
      SPO2.spo2FromTable 681 prev = 90 ∧
      SPO2.spo2FromTable 720 prev = 90 ∧
      SPO2.spo2FromTable 721 prev = 89 ∧
      SPO2.spo2FromTable 800 prev = 89 ∧
      SPO2.spo2FromTable 801 prev = 88 ∧
      SPO2.spo2FromTable 940 prev = 88 ∧
      SPO2.spo2FromTable 941 prev = 87 ∧
      SPO2.spo2FromTable 980 prev = 87 ∧
      SPO2.spo2FromTable 981 prev = 86 ∧
      SPO2.spo2FromTable 1020 prev = 86 ∧
      SPO2.spo2FromTable 1021 prev = 85 ∧
      SPO2.spo2FromTable 1060 prev = 85 ∧
      SPO2.spo2FromTable 1061 prev = 84 ∧
      SPO2.spo2FromTable 1080 prev = 84 ∧
      SPO2.spo2FromTable 1081 prev = 83 ∧
      SPO2.spo2FromTable 1100 prev = 83 ∧
      SPO2.spo2FromTable 1101 prev = 82 ∧
      SPO2.spo2FromTable 1120 prev = 82 ∧
      SPO2.spo2FromTable 1121 prev = 81 ∧
      SPO2.spo2FromTable 1150 prev = 81 ∧
      SPO2.spo2FromTable 1151 prev = 80 ∧
      SPO2.spo2FromTable 1170 prev = 80 ∧
      SPO2.spo2FromTable 1171 prev = 79 ∧
      SPO2.spo2FromTable 1200 prev = 79) := by
  refine ⟨fun rp ip buf prev => clampSpO2_mem _, fun rp ip buf prev => rfl,
    ?_, spo2FromTable_mono, spo2FromTable_hold, ?_⟩
  · intro rp ip buf prev h1 h2 hm
    show SPO2.clampSpO2 (SPO2.spo2FromTable
        (SPO2.medianOfBuf (buf.tail ++ [cTrunc (rp / ip * 1000)])) prev) = prev
    rw [spo2FromTable_hold _ _ hm]
    exact clampSpO2_of_mem prev h1 h2
  · intro prev
    exact ⟨spo2FromTable_band0 450 prev (by norm_num),
      spo2FromTable_band1 451 prev (by norm_num) (by norm_num),
      spo2FromTable_band1 470 prev (by norm_num) (by norm_num),
      spo2FromTable_band2 471 prev (by norm_num) (by norm_num),
      spo2FromTable_band2 510 prev (by norm_num) (by norm_num),
      spo2FromTable_band3 511 prev (by norm_num) (by norm_num),
      spo2FromTable_band3 540 prev (by norm_num) (by norm_num),
      spo2FromTable_band4 541 prev (by norm_num) (by norm_num),
      spo2FromTable_band4 580 prev (by norm_num) (by norm_num),
      spo2FromTable_band5 581 prev (by norm_num) (by norm_num),
      spo2FromTable_band5 600 prev (by norm_num) (by norm_num),
      spo2FromTable_band6 601 prev (by norm_num) (by norm_num),
      spo2FromTable_band6 620 prev (by norm_num) (by norm_num),
      spo2FromTable_band7 621 prev (by norm_num) (by norm_num),
      spo2FromTable_band7 640 prev (by norm_num) (by norm_num),
      spo2FromTable_band8 641 prev (by norm_num) (by norm_num),
      spo2FromTable_band8 680 prev (by norm_num) (by norm_num),
      spo2FromTable_band9 681 prev (by norm_num) (by norm_num),
      spo2FromTable_band9 720 prev (by norm_num) (by norm_num),
      spo2FromTable_band10 721 prev (by norm_num) (by norm_num),
      spo2FromTable_band10 800 prev (by norm_num) (by norm_num),
      spo2FromTable_band11 801 prev (by norm_num) (by norm_num),
      spo2FromTable_band11 940 prev (by norm_num) (by norm_num),
      spo2FromTable_band12 941 prev (by norm_num) (by norm_num),
      spo2FromTable_band12 980 prev (by norm_num) (by norm_num),
      spo2FromTable_band13 981 prev (by norm_num) (by norm_num),
      spo2FromTable_band13 1020 prev (by norm_num) (by norm_num),
      spo2FromTable_band14 1021 prev (by norm_num) (by norm_num),
      spo2FromTable_band14 1060 prev (by norm_num) (by norm_num),
      spo2FromTable_band15 1061 prev (by norm_num) (by norm_num),
      spo2FromTable_band15 1080 prev (by norm_num) (by norm_num),
      spo2FromTable_band16 1081 prev (by norm_num) (by norm_num),
      spo2FromTable_band16 1100 prev (by norm_num) (by norm_num),
      spo2FromTable_band17 1101 prev (by norm_num) (by norm_num),
      spo2FromTable_band17 1120 prev (by norm_num) (by norm_num),
      spo2FromTable_band18 1121 prev (by norm_num) (by norm_num),
      spo2FromTable_band18 1150 prev (by norm_num) (by norm_num),
      spo2FromTable_band19 1151 prev (by norm_num) (by norm_num),
      spo2FromTable_band19 1170 prev (by norm_num) (by norm_num),
      spo2FromTable_band20 1171 prev (by norm_num) (by norm_num),
      spo2FromTable_band20 1200 prev (by norm_num) (by norm_num)⟩

/-- C4 witness: the table/hold/monotonicity/range statements applied at
concrete inputs (an in-range hold at median 1300 with prev = 85, the
range bound at a concrete cycle, monotonicity at 460 ≤ 472). -/

theorem C4_witness :
    70 ≤ (SPO2.calSpO2 5 10 [0, 0, 0, 0, 0] 0).spo2 ∧
    (SPO2.calSpO2 13 10 [1300, 1300, 1300, 1300, 1250] 85).spo2 = 85 ∧
    SPO2.spo2FromTable 472 0 ≤ SPO2.spo2FromTable 460 0 := by
  have hc : cTrunc ((13 : ℚ) / 10 * 1000) = 1300 := by
    rw [show ((13 : ℚ) / 10 * 1000) = ((1300 : ℤ) : ℚ) by norm_num, cTrunc_intCast]
  refine ⟨(C4_calibration_table.1 5 10 [0, 0, 0, 0, 0] 0).1,
    C4_calibration_table.2.2.1 13 10 [1300, 1300, 1300, 1300, 1250] 85
      (by norm_num) (by norm_num) ?_,
    C4_calibration_table.2.2.2.1 0 460 472 (by norm_num) (by norm_num)⟩
  rw [show ([1300, 1300, 1300, 1300, 1250] : List ℤ).tail ++ [cTrunc ((13 : ℚ) / 10 * 1000)]
      = [1300, 1300, 1300, 1250, 1300] by rw [hc]; rfl]
  decide

theorem ecgWrite_waveIndex (inp : ℕ) (s : ECG.State) :
    (ECG.ecgWrite inp s).waveIndex = s.waveIndex + 1 := rfl

theorem ecgWrite_peakThreshold (inp : ℕ) (s : ECG.State) :
    (ECG.ecgWrite inp s).peakThreshold = s.peakThreshold := rfl

theorem ecgDetect_peakThreshold (now : ℕ) (s : ECG.State) :
    (ECG.ecgDetect now s).peakThreshold = s.peakThreshold := by
  unfold ECG.ecgDetect
  split_ifs <;> rfl

theorem respWrite_waveIndex (inp : ℕ) (s : RESP.State) :
    (RESP.respWrite inp s).waveIndex = s.waveIndex + 1 := rfl

theorem respWrite_peakThreshold (inp : ℕ) (s : RESP.State) :
    (RESP.respWrite inp s).peakThreshold = s.peakThreshold := rfl

theorem respDetect_peakThreshold (now : ℕ) (s : RESP.State) :
    (RESP.respDetect now s).peakThreshold = s.peakThreshold := by
  unfold RESP.respDetect
  split_ifs <;> rfl

theorem spo2Write_waveIndex (s : SPO2.State) :
    (SPO2.spo2Write s).waveIndex = s.waveIndex + 1 := rfl

theorem spo2Write_peakThreshold (s : SPO2.State) :
    (SPO2.spo2Write s).peakThreshold = s.peakThreshold := rfl

theorem spo2Write_adjustWaitCnt (s : SPO2.State) :
    (SPO2.spo2Write s).adjustWaitCnt = s.adjustWaitCnt := rfl

theorem spo2Write_sDACdata (s : SPO2.State) :
    (SPO2.spo2Write s).sDACdata = s.sDACdata := rfl

theorem spo2Write_peak2peakRED (s : SPO2.State) :
    (SPO2.spo2Write s).peak2peakRED = s.peak2peakRED := rfl

theorem spo2Write_valueR (s : SPO2.State) :
    (SPO2.spo2Write s).valueR = s.valueR := rfl

theorem spo2Write_valueSPO2 (s : SPO2.State) :
    (SPO2.spo2Write s).valueSPO2 = s.valueSPO2 := rfl

theorem spo2HrAccum_sDACdata (c : ℤ) (s : SPO2.State) :
    (SPO2.spo2HrAccum c s).sDACdata = s.sDACdata := by
  unfold SPO2.spo2HrAccum
  split_ifs <;> rfl

theorem spo2HrAccum_adjustWaitCnt (c : ℤ) (s : SPO2.State) :
    (SPO2.spo2HrAccum c s).adjustWaitCnt = s.adjustWaitCnt := by
  unfold SPO2.spo2HrAccum
  split_ifs <;> rfl

theorem spo2HrAccum_peakThreshold (c : ℤ) (s : SPO2.State) :
    (SPO2.spo2HrAccum c s).peakThreshold = s.peakThreshold := by
  unfold SPO2.spo2HrAccum
  split_ifs <;> rfl

theorem spo2HrAccum_peak2peakRED (c : ℤ) (s : SPO2.State) :
    (SPO2.spo2HrAccum c s).peak2peakRED = s.peak2peakRED := by
  unfold SPO2.spo2HrAccum
  split_ifs <;> rfl

theorem spo2HrAccum_valueR (c : ℤ) (s : SPO2.State) :
    (SPO2.spo2HrAccum c s).valueR = s.valueR := by
  unfold SPO2.spo2HrAccum
  split_ifs <;> rfl

theorem spo2HrAccum_valueSPO2 (c : ℤ) (s : SPO2.State) :
    (SPO2.spo2HrAccum c s).valueSPO2 = s.valueSPO2 := by
  unfold SPO2.spo2HrAccum
  split_ifs <;> rfl

theorem spo2PeakDetect_sDACdata (now : ℕ) (s : SPO2.State) :
    (SPO2.spo2PeakDetect now s).sDACdata = s.sDACdata := by
  unfold SPO2.spo2PeakDetect
  split_ifs <;> simp [spo2HrAccum_sDACdata]

theorem spo2PeakDetect_adjustWaitCnt (now : ℕ) (s : SPO2.State) :
    (SPO2.spo2PeakDetect now s).adjustWaitCnt = s.adjustWaitCnt := by
  unfold SPO2.spo2PeakDetect
  split_ifs <;> simp [spo2HrAccum_adjustWaitCnt]

theorem spo2PeakDetect_peakThreshold (now : ℕ) (s : SPO2.State) :
    (SPO2.spo2PeakDetect now s).peakThreshold = s.peakThreshold := by
  unfold SPO2.spo2PeakDetect
  split_ifs <;> simp [spo2HrAccum_peakThreshold]

theorem spo2PeakDetect_peak2peakRED (now : ℕ) (s : SPO2.State) :
    (SPO2.spo2PeakDetect now s).peak2peakRED = s.peak2peakRED := by
  unfold SPO2.spo2PeakDetect
  split_ifs <;> simp [spo2HrAccum_peak2peakRED]

theorem spo2PeakDetect_valueR (now : ℕ) (s : SPO2.State) :
    (SPO2.spo2PeakDetect now s).valueR = s.valueR := by
  unfold SPO2.spo2PeakDetect
  split_ifs <;> simp [spo2HrAccum_valueR]

theorem spo2PeakDetect_valueSPO2 (now : ℕ) (s : SPO2.State) :
    (SPO2.spo2PeakDetect now s).valueSPO2 = s.valueSPO2 := by
  unfold SPO2.spo2PeakDetect
  split_ifs <;> simp [spo2HrAccum_valueSPO2]

theorem spo2PeakDetect_of_waveIndex0 (now : ℕ) (s : SPO2.State) (h : s.waveIndex = 0) :
    SPO2.spo2PeakDetect now s = s := by
  unfold SPO2.spo2PeakDetect
  rw [if_neg]
  rw [h]
  simp

theorem spo2Analyze_waveIndex (s : SPO2.State) :
    (SPO2.spo2Analyze s).waveIndex = s.waveIndex := rfl

theorem spo2Analyze_peakThreshold (s : SPO2.State) :
    (SPO2.spo2Analyze s).peakThreshold
      = (SPO2.Analyze_SPO2Wave s.waveRED s.waveIR s.waveRate).threshold := rfl

theorem spo2Analyze_peak2peakRED (s : SPO2.State) :
    (SPO2.spo2Analyze s).peak2peakRED
      = (SPO2.Analyze_SPO2Wave s.waveRED s.waveIR s.waveRate).ppRed := rfl

theorem spo2Analyze_valueSPO2 (s : SPO2.State) :
    (SPO2.spo2Analyze s).valueSPO2
      = (SPO2.calSpO2 (SPO2.Analyze_SPO2Wave s.waveRED s.waveIR s.waveRate).ppRed
          (SPO2.Analyze_SPO2Wave s.waveRED s.waveIR s.waveRate).ppIR
          s.rValueBuf s.valueSPO2).spo2 := rfl

theorem spo2Analyze_sDACdata (s : SPO2.State) :
    (SPO2.spo2Analyze s).sDACdata = s.sDACdata := rfl

theorem spo2Analyze_adjustWaitCnt (s : SPO2.State) :
    (SPO2.spo2Analyze s).adjustWaitCnt = s.adjustWaitCnt := rfl

theorem spo2AutoGain_waveIndex (s : SPO2.State) :
    (SPO2.spo2AutoGain s).waveIndex = s.waveIndex := by
  unfold SPO2.spo2AutoGain
  split_ifs <;> rfl

theorem spo2AutoGain_peakThreshold (s : SPO2.State) :
    (SPO2.spo2AutoGain s).peakThreshold = s.peakThreshold := by
  unfold SPO2.spo2AutoGain
  split_ifs <;> rfl

theorem spo2AutoGain_peak2peakRED (s : SPO2.State) :
    (SPO2.spo2AutoGain s).peak2peakRED = s.peak2peakRED := by
  unfold SPO2.spo2AutoGain
  split_ifs <;> rfl

theorem spo2AutoGain_valueR (s : SPO2.State) :
    (SPO2.spo2AutoGain s).valueR = s.valueR := by
  unfold SPO2.spo2AutoGain
  split_ifs <;> rfl

theorem spo2AutoGain_valueSPO2 (s : SPO2.State) :
    (SPO2.spo2AutoGain s).valueSPO2 = s.valueSPO2 := by
  unfold SPO2.spo2AutoGain
  split_ifs <;> rfl

theorem SPO2Task_nowrap (now : ℕ) (s : SPO2.State) (h : s.waveIndex < 299) :
    SPO2.SPO2Task now s = SPO2.spo2PeakDetect now (SPO2.spo2Write s) := by
  simp only [SPO2.SPO2Task]
  have hnw : ¬ (300 ≤ (SPO2.spo2Write s).waveIndex) := by
    rw [spo2Write_waveIndex]
    omega
  rw [if_neg hnw]

theorem SPO2Task_wrap_cooldown (now : ℕ) (s : SPO2.State)
    (hw : 299 ≤ s.waveIndex) (hcd : 0 < s.adjustWaitCnt) :
    SPO2.SPO2Task now s
      = { SPO2.spo2Write s with waveIndex := 0,
                                adjustWaitCnt := s.adjustWaitCnt - 1 } := by
  simp only [SPO2.SPO2Task]
  have h1 : 300 ≤ (SPO2.spo2Write s).waveIndex := by
    rw [spo2Write_waveIndex]
    omega
  rw [if_pos h1,
    if_pos (show (0 : ℤ) <
      ({ SPO2.spo2Write s with waveIndex := 0 } : SPO2.State).adjustWaitCnt from hcd)]
  rfl

theorem SPO2Task_wrap_analyze (now : ℕ) (s : SPO2.State)
    (hw : 299 ≤ s.waveIndex) (hcd : s.adjustWaitCnt ≤ 0) :
    SPO2.SPO2Task now s
      = SPO2.spo2AutoGain (SPO2.spo2Analyze { SPO2.spo2Write s with waveIndex := 0 }) := by
  simp only [SPO2.SPO2Task]
  have h1 : 300 ≤ (SPO2.spo2Write s).waveIndex := by
    rw [spo2Write_waveIndex]
    omega
  have h2 : ¬ ((0 : ℤ) <
      ({ SPO2.spo2Write s with waveIndex := 0 } : SPO2.State).adjustWaitCnt) := by
    rw [show ({ SPO2.spo2Write s with waveIndex := 0 } : SPO2.State).adjustWaitCnt
        = s.adjustWaitCnt from rfl]
    omega
  rw [if_pos h1, if_neg h2]
  apply spo2PeakDetect_of_waveIndex0
  rw [spo2AutoGain_waveIndex, spo2Analyze_waveIndex]

theorem foldlMax_replicate_zero (n : ℕ) (m : ℚ) (h : 0 ≤ m) :
    (List.replicate n (0 : ℚ)).foldl (fun m x => if m < x then x else m) m = m := by
  induction n generalizing m with
  | zero => rfl
  | succ n ih =>
    rw [List.replicate_succ, List.foldl_cons, if_neg (by linarith : ¬ m < 0)]
    exact ih m h

theorem foldlMin_replicate_zero (n : ℕ) (m : ℚ) (h : m ≤ 0) :
    (List.replicate n (0 : ℚ)).foldl (fun m x => if x < m then x else m) m = m := by
  induction n generalizing m with
  | zero => rfl
  | succ n ih =>
    rw [List.replicate_succ, List.foldl_cons, if_neg (by linarith : ¬ (0 : ℚ) < m)]
    exact ih m h

theorem foldlMin_replicate_zero_pos (n : ℕ) (m : ℚ) (hn : 0 < n) (hm : 0 ≤ m) :
    (List.replicate n (0 : ℚ)).foldl (fun m x => if x < m then x else m) m = 0 := by
  cases n with
  | zero => omega
  | succ n =>
    rw [List.replicate_succ, List.foldl_cons]
    by_cases h0 : (0 : ℚ) < m
    · rw [if_pos h0]
      exact foldlMin_replicate_zero n 0 le_rfl
    · rw [if_neg h0]
      have hm0 : m = 0 := le_antisymm (by linarith) hm
      rw [hm0]
      exact foldlMin_replicate_zero n 0 le_rfl

theorem scanMax_replicate_zero (n : ℕ) : scanMax (List.replicate n 0) = 0 :=
  foldlMax_replicate_zero n 0 le_rfl

theorem scanMin_replicate_zero (n : ℕ) (h : 0 < n) : scanMin (List.replicate n 0) = 0 :=
  foldlMin_replicate_zero_pos n 4095 h (by norm_num)

theorem scanMax_cons100 (n : ℕ) : scanMax (100 :: List.replicate n 0) = 100 := by
  unfold scanMax
  rw [List.foldl_cons, if_pos (by norm_num : (0 : ℚ) < 100)]
  exact foldlMax_replicate_zero n 100 (by norm_num)

theorem scanMin_cons100 (n : ℕ) (h : 0 < n) : scanMin (100 :: List.replicate n 0) = 0 := by
  unfold scanMin
  rw [List.foldl_cons, if_pos (by norm_num : (100 : ℚ) < 4095)]
  exact foldlMin_replicate_zero_pos n 100 h (by norm_num)

theorem set_replicate_zero (n k : ℕ) :
    (List.replicate n (0 : ℚ)).set k 0 = List.replicate n 0 := by
  induction n generalizing k with
  | zero => simp
  | succ n ih =>
    cases k <;> simp [List.replicate_succ, List.set, ih]

theorem iirStep_zero (b a : Coeff) : iirStep b a 0 zeroWin = (0, zeroWin) := by
  unfold iirStep zeroWin
  simp

theorem spo2Filters_zero_out (s : SPO2.State) (hR : s.dataRED = 0) (hI : s.dataIR = 0)
    (h1 : s.highWinRED = zeroWin) (h2 : s.highWinIR = zeroWin)
    (h3 : s.lowWinRED = zeroWin) (h4 : s.lowWinIR = zeroWin)
    (h5 : s.smoothRED = initSmooth 5) (h6 : s.smoothIR = initSmooth 5) :
    (SPO2.spo2Filters s).1 = (0, 0) := by
  unfold SPO2.spo2Filters
  rw [hR, hI, h1, h2, h3, h4, h5, h6]
  simp [iirStep_zero, smoothStep, initSmooth]

theorem spo2Write_waveRate (s : SPO2.State) :
    (SPO2.spo2Write s).waveRate
      = s.waveRate.set s.waveIndex (SPO2.spo2Filters s).1.2 := rfl

theorem spo2Write_waveRED (s : SPO2.State) :
    (SPO2.spo2Write s).waveRED
      = s.waveRED.set s.waveIndex (SPO2.spo2Filters s).1.1 := rfl

theorem spo2Write_waveIR (s : SPO2.State) :
    (SPO2.spo2Write s).waveIR
      = s.waveIR.set s.waveIndex (SPO2.spo2Filters s).1.2 := rfl

theorem c7_filters : (SPO2.spo2Filters c7State).1 = (0, 0) :=
  spo2Filters_zero_out c7State rfl rfl rfl rfl rfl rfl rfl rfl

theorem c7_waveRED : (SPO2.spo2Write c7State).waveRED = List.replicate 300 0 := by
  rw [spo2Write_waveRED, show (SPO2.spo2Filters c7State).1.1 = 0 by rw [c7_filters]]
  exact set_replicate_zero 300 299

theorem c7_waveRate : (SPO2.spo2Write c7State).waveRate = 100 :: List.replicate 299 0 := by
  rw [spo2Write_waveRate, show (SPO2.spo2Filters c7State).1.2 = 0 by rw [c7_filters]]
  show (100 :: List.replicate 299 (0 : ℚ)).set 299 0 = _
  rw [show (299 : ℕ) = 298 + 1 from rfl, List.set_cons_succ, set_replicate_zero]

theorem c7_waveIR : (SPO2.spo2Write c7State).waveIR = 100 :: List.replicate 299 0 := by
  rw [spo2Write_waveIR, show (SPO2.spo2Filters c7State).1.2 = 0 by rw [c7_filters]]
  show (100 :: List.replicate 299 (0 : ℚ)).set 299 0 = _
  rw [show (299 : ℕ) = 298 + 1 from rfl, List.set_cons_succ, set_replicate_zero]

theorem spo2Analyze_valueR (s : SPO2.State) :
    (SPO2.spo2Analyze s).valueR
      = (SPO2.calSpO2 (SPO2.Analyze_SPO2Wave s.waveRED s.waveIR s.waveRate).ppRed
          (SPO2.Analyze_SPO2Wave s.waveRED s.waveIR s.waveRate).ppIR
          s.rValueBuf s.valueSPO2).rValue := rfl

theorem calSpO2_rValue (rp ip : ℚ) (buf : List ℤ) (prev : ℚ) :
    (SPO2.calSpO2 rp ip buf prev).rValue = rp / ip * 1000 := rfl

theorem calSpO2_spo2_eq (rp ip : ℚ) (buf : List ℤ) (prev : ℚ) :
    (SPO2.calSpO2 rp ip buf prev).spo2
      = SPO2.clampSpO2 (SPO2.spo2FromTable
          (SPO2.medianOfBuf (buf.tail ++ [cTrunc (rp / ip * 1000)])) prev) := rfl

theorem c7_analyzeArg :
    SPO2.Analyze_SPO2Wave ({ SPO2.spo2Write c7State with waveIndex := 0 } : SPO2.State).waveRED
      ({ SPO2.spo2Write c7State with waveIndex := 0 } : SPO2.State).waveIR
      ({ SPO2.spo2Write c7State with waveIndex := 0 } : SPO2.State).waveRate
      = ⟨0, 100, 100 - 100 / 3⟩ := by
  rw [show ({ SPO2.spo2Write c7State with waveIndex := 0 } : SPO2.State).waveRED
      = (SPO2.spo2Write c7State).waveRED from rfl,
    show ({ SPO2.spo2Write c7State with waveIndex := 0 } : SPO2.State).waveIR
      = (SPO2.spo2Write c7State).waveIR from rfl,
    show ({ SPO2.spo2Write c7State with waveIndex := 0 } : SPO2.State).waveRate
      = (SPO2.spo2Write c7State).waveRate from rfl,
    c7_waveRED, c7_waveIR, c7_waveRate]
  unfold SPO2.Analyze_SPO2Wave
  rw [scanMax_replicate_zero, scanMin_replicate_zero 300 (by norm_num),
    scanMax_cons100, scanMin_cons100 299 (by norm_num)]
  simp only [SPO2.AnalyzeResult.mk.injEq]
  norm_num

theorem c7_trunc : cTrunc ((0 : ℚ) / 100 * 1000) = 0 := by
  rw [show ((0 : ℚ) / 100 * 1000) = ((0 : ℤ) : ℚ) by norm_num, cTrunc_intCast]

theorem c7_analyze_fields :
    (SPO2.spo2Analyze { SPO2.spo2Write c7State with waveIndex := 0 }).peak2peakRED = 0 ∧
    (SPO2.spo2Analyze { SPO2.spo2Write c7State with waveIndex := 0 }).peakThreshold
      = 100 - 100 / 3 ∧
    (SPO2.spo2Analyze { SPO2.spo2Write c7State with waveIndex := 0 }).valueR = 0 ∧
    (SPO2.spo2Analyze { SPO2.spo2Write c7State with waveIndex := 0 }).valueSPO2 = 88 := by
  refine ⟨?_, ?_, ?_, ?_⟩
  · rw [spo2Analyze_peak2peakRED, c7_analyzeArg]
  · rw [spo2Analyze_peakThreshold, c7_analyzeArg]
  · rw [spo2Analyze_valueR, c7_analyzeArg]
    show (SPO2.calSpO2 0 100 [800, 810, 820, 830, 840] 97).rValue = 0
    rw [calSpO2_rValue]
    norm_num
  · rw [spo2Analyze_valueSPO2, c7_analyzeArg]
    show (SPO2.calSpO2 0 100 [800, 810, 820, 830, 840] 97).spo2 = 88
    rw [calSpO2_spo2_eq]
    rw [show ([800, 810, 820, 830, 840] : List ℤ).tail = [810, 820, 830, 840] from rfl]
    rw [c7_trunc]
    rw [show SPO2.medianOfBuf ([810, 820, 830, 840] ++ [0]) = 820 by decide]
    rw [spo2FromTable_band11 820 97 (by norm_num) (by norm_num)]
    exact clampSpO2_of_mem 88 (by norm_num) (by norm_num)

/-- C7 is refuted for the SpO2 rate-reference window: at a wrap whose
rate window holds its only non-zero sample (100) at index 0, the code's
threshold (computed by `Analyze_SPO2Wave`, whose scan starts at index 0)
is 100 - 100/3 = 200/3, while the claimed index-0-excluding scan yields
threshold 0. -/

theorem C7_counterexample :
    (SPO2.SPO2Task 5 c7State).peakThreshold = 200 / 3 ∧
    specThresholdExcl0 ((SPO2.spo2Write c7State).waveRate) 3 = 0 ∧
    ¬ (SPO2.SPO2Task 5 c7State).peakThreshold
        = specThresholdExcl0 ((SPO2.spo2Write c7State).waveRate) 3 := by
  have h1 : (SPO2.SPO2Task 5 c7State).peakThreshold = 200 / 3 := by
    rw [SPO2Task_wrap_analyze 5 c7State (by decide) (by decide),
      spo2AutoGain_peakThreshold, spo2Analyze_peakThreshold, c7_analyzeArg]
    norm_num
  have h2 : specThresholdExcl0 ((SPO2.spo2Write c7State).waveRate) 3 = 0 := by
    rw [c7_waveRate]
    unfold specThresholdExcl0
    rw [show (100 :: List.replicate 299 (0 : ℚ)).drop 1 = List.replicate 299 0 from rfl,
      scanMax_replicate_zero, scanMin_replicate_zero 299 (by norm_num)]
    norm_num
  refine ⟨h1, h2, ?_⟩
  rw [h1, h2]
  norm_num

/-- C7 (amended): ECG and RESP recompute their detection threshold
exactly at window wraps via `Update_Threshold`, whose scan runs over the
window excluding index 0 with k = 4; the SpO2 rate-reference threshold
is recomputed only at non-cool-down wraps and its scan covers the entire
window including index 0, with k = 3; between wraps (and at cool-down
wraps) no task modifies its threshold. -/

theorem C7_threshold_refresh :
    (∀ w : List ℚ, ECG.Update_Threshold w
        = scanMax (w.drop 1) - (scanMax (w.drop 1) - scanMin (w.drop 1)) / 4) ∧
    (∀ w : List ℚ, (RESP.Update_Threshold w).1
        = scanMax (w.drop 1) - (scanMax (w.drop 1) - scanMin (w.drop 1)) / 4) ∧
    (∀ (now inp : ℕ) (s : ECG.State),
      (ECG.ECGTask now inp s).peakThreshold
        = if 299 ≤ s.waveIndex then ECG.Update_Threshold (ECG.ecgWrite inp s).wave
          else s.peakThreshold) ∧
    (∀ (now inp : ℕ) (s : RESP.State),
      (RESP.RESPTask now inp s).peakThreshold
        = if 999 ≤ s.waveIndex then (RESP.Update_Threshold (RESP.respWrite inp s).wave).1
          else s.peakThreshold) ∧
    (∀ (now : ℕ) (s : SPO2.State),
      (SPO2.SPO2Task now s).peakThreshold
        = if 299 ≤ s.waveIndex ∧ s.adjustWaitCnt ≤ 0 then
            scanMax (SPO2.spo2Write s).waveRate
              - (scanMax (SPO2.spo2Write s).waveRate
                  - scanMin (SPO2.spo2Write s).waveRate) / 3
          else s.peakThreshold) := by
  refine ⟨fun w => rfl, fun w => rfl, ?_, ?_, ?_⟩
  · intro now inp s
    simp only [ECG.ECGTask]
    by_cases hw : 299 ≤ s.waveIndex
    · have h1 : 300 ≤ (ECG.ecgWrite inp s).waveIndex := by
        rw [ecgWrite_waveIndex]
        omega
      rw [if_pos h1, if_pos hw, ecgDetect_peakThreshold]
    · have h1 : ¬ 300 ≤ (ECG.ecgWrite inp s).waveIndex := by
        rw [ecgWrite_waveIndex]
        omega
      rw [if_neg h1, if_neg hw, ecgDetect_peakThreshold, ecgWrite_peakThreshold]
  · intro now inp s
    simp only [RESP.RESPTask]
    by_cases hw : 999 ≤ s.waveIndex
    · have h1 : 1000 ≤ (RESP.respWrite inp s).waveIndex := by
        rw [respWrite_waveIndex]
        omega
      rw [if_pos h1, if_pos hw, respDetect_peakThreshold]
    · have h1 : ¬ 1000 ≤ (RESP.respWrite inp s).waveIndex := by
        rw [respWrite_waveIndex]
        omega
      rw [if_neg h1, if_neg hw, respDetect_peakThreshold, respWrite_peakThreshold]
  · intro now s
    by_cases hw : 299 ≤ s.waveIndex
    · by_cases hcd : s.adjustWaitCnt ≤ 0
      · rw [if_pos ⟨hw, hcd⟩, SPO2Task_wrap_analyze now s hw hcd,
          spo2AutoGain_peakThreshold, spo2Analyze_peakThreshold]
        rfl
      · push_neg at hcd
        have hn : ¬ (299 ≤ s.waveIndex ∧ s.adjustWaitCnt ≤ 0) := by omega
        rw [if_neg hn, SPO2Task_wrap_cooldown now s hw hcd]
        rfl
    · have hn : ¬ (299 ≤ s.waveIndex ∧ s.adjustWaitCnt ≤ 0) := by omega
      rw [if_neg hn, SPO2Task_nowrap now s (by omega), spo2PeakDetect_peakThreshold,
        spo2Write_peakThreshold]

theorem spo2AutoGain_spec (s : SPO2.State) :
    (s.peak2peakRED < 20 → s.sDACdata < 500 →
      (SPO2.spo2AutoGain s).sDACdata = min (s.sDACdata + 40) 500 ∧
      (SPO2.spo2AutoGain s).adjustWaitCnt = 1) ∧
    (80 < s.peak2peakRED → 100 < s.sDACdata →
      (SPO2.spo2AutoGain s).sDACdata = max (s.sDACdata - 40) 100 ∧
      (SPO2.spo2AutoGain s).adjustWaitCnt = 1) ∧
    (¬ s.peak2peakRED < 20 → ¬ 80 < s.peak2peakRED →
      SPO2.spo2AutoGain s = s) := by
  unfold SPO2.spo2AutoGain
  refine ⟨?_, ?_, ?_⟩
  · intro h1 h2
    rw [if_pos ⟨h1, h2⟩]
    refine ⟨?_, rfl⟩
    show (if 500 < s.sDACdata + 40 then 500 else s.sDACdata + 40) = min (s.sDACdata + 40) 500
    split_ifs <;> omega
  · intro h1 h2
    have hn : ¬ (s.peak2peakRED < 20 ∧ s.sDACdata < 500) := by
      intro hc
      linarith [hc.1]
    rw [if_neg hn, if_pos ⟨h1, h2⟩]
    refine ⟨?_, rfl⟩
    show (if s.sDACdata - 40 < 100 then 100 else s.sDACdata - 40) = max (s.sDACdata - 40) 100
    split_ifs <;> omega
  · intro h1 h2
    rw [if_neg (fun hc => h1 hc.1), if_neg (fun hc => h2 hc.1)]

theorem spo2AutoGain_changed (t : SPO2.State)
    (h : (SPO2.spo2AutoGain t).sDACdata ≠ t.sDACdata) :
    (SPO2.spo2AutoGain t).adjustWaitCnt = 1 := by
  unfold SPO2.spo2AutoGain at h ⊢
  split_ifs at h ⊢ <;> first | rfl | exact absurd rfl h

/-- C6: at a wrap with no cool-down pending, a RED peak-to-peak below 20
with drive below the maximum raises the DAC drive by exactly 40 (clamped
to 500) and arms the cool-down; above 80 with drive above the minimum it
lowers it by 40 (clamped to 100) and arms the cool-down; the armed
cool-down makes exactly the next wrap a no-op (no analysis, no gain
step, counter back to 0), and ordinary non-wrap ticks change neither the
drive nor the counter. -/

theorem C6_auto_gain (now : ℕ) (s : SPO2.State) (hw : 299 ≤ s.waveIndex)
    (hcd : s.adjustWaitCnt ≤ 0) :
    ((SPO2.spo2Analyze { SPO2.spo2Write s with waveIndex := 0 }).peak2peakRED < 20 →
      s.sDACdata < 500 →
      (SPO2.SPO2Task now s).sDACdata = min (s.sDACdata + 40) 500 ∧
      (SPO2.SPO2Task now s).adjustWaitCnt = 1) ∧
    (80 < (SPO2.spo2Analyze { SPO2.spo2Write s with waveIndex := 0 }).peak2peakRED →
      100 < s.sDACdata →
      (SPO2.SPO2Task now s).sDACdata = max (s.sDACdata - 40) 100 ∧
      (SPO2.SPO2Task now s).adjustWaitCnt = 1) ∧
    (∀ (now2 : ℕ) (s2 : SPO2.State), 299 ≤ s2.waveIndex → s2.adjustWaitCnt = 1 →
      (SPO2.SPO2Task now2 s2).adjustWaitCnt = 0 ∧
      (SPO2.SPO2Task now2 s2).sDACdata = s2.sDACdata ∧
      (SPO2.SPO2Task now2 s2).peak2peakRED = s2.peak2peakRED ∧
      (SPO2.SPO2Task now2 s2).valueSPO2 = s2.valueSPO2 ∧
      (SPO2.SPO2Task now2 s2).peakThreshold = s2.peakThreshold) ∧
    (∀ (now2 : ℕ) (s2 : SPO2.State), s2.waveIndex < 299 →
      (SPO2.SPO2Task now2 s2).adjustWaitCnt = s2.adjustWaitCnt ∧
      (SPO2.SPO2Task now2 s2).sDACdata = s2.sDACdata) := by
  have htask := SPO2Task_wrap_analyze now s hw hcd
  refine ⟨?_, ?_, ?_, ?_⟩
  · intro h1 h2
    rw [htask]
    exact (spo2AutoGain_spec _).1 h1 h2
  · intro h1 h2
    rw [htask]
    exact (spo2AutoGain_spec _).2.1 h1 h2
  · intro now2 s2 hw2 hcd2
    rw [SPO2Task_wrap_cooldown now2 s2 hw2 (by omega)]
    exact ⟨by show s2.adjustWaitCnt - 1 = 0; omega, rfl, rfl, rfl, rfl⟩
  · intro now2 s2 h
    rw [SPO2Task_nowrap now2 s2 h]
    exact ⟨by rw [spo2PeakDetect_adjustWaitCnt, spo2Write_adjustWaitCnt],
           by rw [spo2PeakDetect_sDACdata, spo2Write_sDACdata]⟩

/-- C6 witness: the auto-gain theorem applied at the concrete wrap state
`c7State` (RED peak-to-peak 0 < 20, drive 240 < 500): the drive rises by
exactly one step to 280 and the cool-down is armed. -/

theorem C6_witness :
    (SPO2.SPO2Task 5 c7State).sDACdata = min (240 + 40) 500 ∧
    (SPO2.SPO2Task 5 c7State).adjustWaitCnt = 1 :=
  (C6_auto_gain 5 c7State (by decide) (by decide)).1
    (by rw [c7_analyze_fields.1]; norm_num) (by decide)

/-- C1 is refuted: at the concrete wrap state `c7State` (no cool-down
pending, RED peak-to-peak 0), the very same wrap both performs amplitude
analysis (peak-to-peak, R value and saturation are recomputed: the
stored saturation changes from 97 to 88) and changes the LED intensity
(DAC drive 240 → 280, cool-down armed). -/

theorem C1_counterexample :
    (SPO2.SPO2Task 5 c7State).valueSPO2 = 88 ∧
    ¬ (SPO2.SPO2Task 5 c7State).valueSPO2 = c7State.valueSPO2 ∧
    (SPO2.SPO2Task 5 c7State).valueR = 0 ∧
    (SPO2.SPO2Task 5 c7State).peak2peakRED = 0 ∧
    (SPO2.SPO2Task 5 c7State).sDACdata = 280 ∧
    ¬ (SPO2.SPO2Task 5 c7State).sDACdata = c7State.sDACdata ∧
    (SPO2.SPO2Task 5 c7State).adjustWaitCnt = 1 := by
  have htask := SPO2Task_wrap_analyze 5 c7State (by decide) (by decide)
  have hgain := (spo2AutoGain_spec
      (SPO2.spo2Analyze { SPO2.spo2Write c7State with waveIndex := 0 })).1
    (by rw [c7_analyze_fields.1]; norm_num) (by decide)
  rw [htask]
  refine ⟨?_, ?_, ?_, ?_, ?_, ?_, ?_⟩
  · rw [spo2AutoGain_valueSPO2, c7_analyze_fields.2.2.2]
  · rw [spo2AutoGain_valueSPO2, c7_analyze_fields.2.2.2]
    show ¬ (88 : ℚ) = 97
    norm_num
  · rw [spo2AutoGain_valueR, c7_analyze_fields.2.2.1]
  · rw [spo2AutoGain_peak2peakRED, c7_analyze_fields.1]
  · rw [hgain.1]
    show min (240 + 40) 500 = 280
    norm_num
  · rw [hgain.1]
    show ¬ min (240 + 40) 500 = 240
    norm_num
  · exact hgain.2

/-- C1 (amended): a cool-down wrap performs neither amplitude analysis
nor a gain change (it only decrements the counter), while a non-cool-down
wrap always performs the analysis and any gain change happens in that
same wrap (arming the cool-down) — so gain changes occur only together
with amplitude analysis, not exclusively of it. -/

theorem C1_gain_requires_analysis (now : ℕ) (s : SPO2.State) (hw : 299 ≤ s.waveIndex) :
    (0 < s.adjustWaitCnt →
      (SPO2.SPO2Task now s).peak2peakRED = s.peak2peakRED ∧
      (SPO2.SPO2Task now s).valueR = s.valueR ∧
      (SPO2.SPO2Task now s).valueSPO2 = s.valueSPO2 ∧
      (SPO2.SPO2Task now s).peakThreshold = s.peakThreshold ∧
      (SPO2.SPO2Task now s).sDACdata = s.sDACdata ∧
      (SPO2.SPO2Task now s).adjustWaitCnt = s.adjustWaitCnt - 1) ∧
    (s.adjustWaitCnt ≤ 0 →
      (SPO2.SPO2Task now s).peak2peakRED
        = (SPO2.spo2Analyze { SPO2.spo2Write s with waveIndex := 0 }).peak2peakRED ∧
      (SPO2.SPO2Task now s).valueSPO2
        = (SPO2.spo2Analyze { SPO2.spo2Write s with waveIndex := 0 }).valueSPO2 ∧
      ((SPO2.SPO2Task now s).sDACdata ≠ s.sDACdata →
        (SPO2.SPO2Task now s).adjustWaitCnt = 1)) := by
  constructor
  · intro hcd
    rw [SPO2Task_wrap_cooldown now s hw hcd]
    exact ⟨rfl, rfl, rfl, rfl, rfl, rfl⟩
  · intro hcd
    rw [SPO2Task_wrap_analyze now s hw hcd]
    refine ⟨spo2AutoGain_peak2peakRED _, spo2AutoGain_valueSPO2 _, ?_⟩
    intro hne
    exact spo2AutoGain_changed _ hne

/-- C1 witness: the amended theorem applied at a concrete cool-down wrap
(`c7State` with the cool-down counter armed): nothing but the counter
changes. -/

theorem C1_witness :
    (SPO2.SPO2Task 5 { c7State with adjustWaitCnt := 1 }).sDACdata
      = ({ c7State with adjustWaitCnt := 1 } : SPO2.State).sDACdata ∧
    (SPO2.SPO2Task 5 { c7State with adjustWaitCnt := 1 }).valueSPO2
      = ({ c7State with adjustWaitCnt := 1 } : SPO2.State).valueSPO2 ∧
    (SPO2.SPO2Task 5 { c7State with adjustWaitCnt := 1 }).adjustWaitCnt
      = ({ c7State with adjustWaitCnt := 1 } : SPO2.State).adjustWaitCnt - 1 := by
  have h := (C1_gain_requires_analysis 5 { c7State with adjustWaitCnt := 1 }
    (by decide)).1 (by decide)
  exact ⟨h.2.2.2.2.1, h.2.2.1, h.2.2.2.2.2⟩
